import Mathlib

/-!
Verification of the `ovirt_clusters` Ansible module
(`src/cloud/ovirt/ovirt_clusters.py`).

The module is a parameter-to-API-object translation layer.  We embed it
shallowly: module parameters become an explicit record of optional values,
the SDK value objects (`otypes.Cluster` and its sub-objects) become plain
structures of optional fields, and every function that can raise a Python
exception or talk to the remote service is embedded in the effect type
`Eff`, which records the result (`Except`-style, an error models a raised
exception) together with the list of remote API calls performed, in order.

Python-value subtleties kept by the embedding:
  * `None` is `Option.none`; truthiness of strings / lists / ints / bools
    is modelled by `truthyS` / `truthyL` / `truthyI` / `truthyB`;
  * Python `x or y` / `x and y` / `not x` on optional booleans are
    `pyOr` / `pyAnd` / `pyNot` (they return one of the operands, so
    `False or None` is `None`, not `False`);
  * `str x` on an optional value is `pyStr` (`str None = "None"`);
  * attribute access on `None` raises (`getAttr`), and arguments of a
    call are evaluated eagerly, left to right, while the `and`-chain of
    `update_check` short-circuits (`andAllM`).
-/

/-- A remote API request issued by the module (one synchronous
request/response call to the SDK). -/
inductive ApiCall where
  | schedPoliciesSearch (name : Option String)
  | clustersSearch (name : Option String)
  | clusterAdd
  | clusterUpdate
  | clusterRemove
deriving DecidableEq, Repr

/-- Result of running a piece of the module: either a value or a raised
exception (its message), together with the remote calls performed. -/
structure Eff (α : Type) where
  res : Except String α
  calls : List ApiCall

/-- Return a value, no effect. -/
def effPure (a : α) : Eff α := ⟨Except.ok a, []⟩

/-- Raise an exception, no remote call. -/
def effThrow (msg : String) : Eff α := ⟨Except.error msg, []⟩

/-- Perform one remote API call. -/
def emitCall (c : ApiCall) : Eff Unit := ⟨Except.ok (), [c]⟩

/-- Lift a pure fallible computation. -/
def liftE (x : Except String α) : Eff α := ⟨x, []⟩

/-- Sequencing: calls made before an exception are kept. -/
def effBind (x : Eff α) (f : α → Eff β) : Eff β :=
  match x.res with
  | Except.error e => ⟨Except.error e, x.calls⟩
  | Except.ok a => ⟨(f a).res, x.calls ++ (f a).calls⟩

/-- Python attribute access: `o.attr` raises `AttributeError` when `o`
is `None`. -/
def getAttr (o : Option α) (attr : String) : Eff α :=
  match o with
  | some a => effPure a
  | none => effThrow ("AttributeError: NoneType object has no attribute " ++ attr)

/-- Python truthiness of an optional string (`None` and `""` are falsy). -/
def truthyS (o : Option String) : Bool :=
  match o with
  | none => false
  | some s => decide (s ≠ "")

/-- Python truthiness of an optional list. -/
def truthyL (o : Option (List String)) : Bool :=
  match o with
  | none => false
  | some l => decide (l ≠ [])

/-- Python truthiness of an optional int. -/
def truthyI (o : Option Int) : Bool :=
  match o with
  | none => false
  | some n => decide (n ≠ 0)

/-- Python truthiness of an optional bool. -/
def truthyB (o : Option Bool) : Bool := o == some true

/-- Python `not x` on an optional bool. -/
def pyNot (a : Option Bool) : Bool :=
  match a with
  | some true => false
  | _ => true

/-- Python `x or y` on optional bools: the first operand if truthy,
otherwise the second (so `False or None = None`). -/
def pyOr (a b : Option Bool) : Option Bool :=
  match a with
  | some true => some true
  | _ => b

/-- Python `x and y` on optional bools: the first operand if falsy,
otherwise the second (so `None and x = None`, `False and x = False`). -/
def pyAnd (a b : Option Bool) : Option Bool :=
  match a with
  | some true => b
  | _ => a

/-- Python `str x` for an optional string-valued object
(`str None = "None"`; the SDK enums stringify to their value). -/
def pyStr : Option String → String
  | none => "None"
  | some s => s

/-- Python `int s` (raises `ValueError` on a non-numeric literal). -/
def pyInt (s : String) : Except String Int :=
  match s.toInt? with
  | some n => Except.ok n
  | none => Except.error ("ValueError: invalid literal for int: " ++ s)

/-- Insertion into a sorted list of strings (helper for `sortStr`). -/
def insortStr (s : String) : List String → List String
  | [] => [s]
  | t :: ts => if s ≤ t then s :: t :: ts else t :: insortStr s ts

/-- Python `sorted` on a list of strings. -/
def sortStr : List String → List String
  | [] => []
  | s :: ts => insortStr s (sortStr ts)

/-! ## The data model: module parameters and SDK value objects -/

/-- The module parameters (`module.params`); every parameter defaults to
`None` in the argument spec, hence all fields are optional. -/
structure Params where
  name : Option String := none
  comment : Option String := none
  description : Option String := none
  ballooning : Option Bool := none
  gluster : Option Bool := none
  virt : Option Bool := none
  threads_as_cores : Option Bool := none
  ksm : Option Bool := none
  ksm_numa : Option Bool := none
  ha_reservation : Option Bool := none
  trusted_service : Option Bool := none
  vm_reason : Option Bool := none
  host_reason : Option Bool := none
  memory_policy : Option String := none
  rng_sources : Option (List String) := none
  spice_proxy : Option String := none
  fence_enabled : Option Bool := none
  fence_skip_if_sd_active : Option Bool := none
  fence_skip_if_connectivity_broken : Option Bool := none
  fence_connectivity_threshold : Option Int := none
  resilience_policy : Option String := none
  migration_bandwidth : Option String := none
  migration_bandwidth_limit : Option Int := none
  migration_auto_converge : Option String := none
  migration_compressed : Option String := none
  migration_policy : Option String := none
  serial_policy : Option String := none
  serial_policy_value : Option String := none
  scheduling_policy : Option String := none
  datacenter : Option String := none
  network : Option String := none
  cpu_arch : Option String := none
  cpu_type : Option String := none
  switch_type : Option String := none
  compatibility_version : Option String := none
deriving DecidableEq, Repr

/-- `otypes.SchedulingPolicy(id=...)` as built by `build_entity`. -/
structure SchedulingPolicyRef where
  id : Option String
deriving DecidableEq, Repr

/-- A scheduling policy entity as returned by the remote
scheduling-policies service. -/
structure SchedPolicy where
  id : String
  name : String
deriving DecidableEq, Repr

/-- `otypes.SerialNumber`. -/
structure SerialNumber where
  policy : Option String
  value : Option String
deriving DecidableEq, Repr

/-- `otypes.MigrationBandwidth`. -/
structure MigrationBandwidth where
  assignment_method : Option String
  custom_value : Option Int
deriving DecidableEq, Repr

/-- `otypes.MigrationPolicy(id=...)`. -/
structure MigrationPolicyRef where
  id : Option String
deriving DecidableEq, Repr

/-- `otypes.MigrationOptions`. -/
structure MigrationOptions where
  auto_converge : Option String
  bandwidth : Option MigrationBandwidth
  compressed : Option String
  policy : Option MigrationPolicyRef
deriving DecidableEq, Repr

/-- `otypes.ErrorHandling`. -/
structure ErrorHandling where
  on_error : Option String
deriving DecidableEq, Repr

/-- `otypes.SkipIfConnectivityBroken`. -/
structure SkipIfConnectivityBroken where
  enabled : Option Bool
  threshold : Option Int
deriving DecidableEq, Repr

/-- `otypes.SkipIfSdActive`. -/
structure SkipIfSdActive where
  enabled : Option Bool
deriving DecidableEq, Repr

/-- `otypes.FencingPolicy`. -/
structure FencingPolicy where
  enabled : Option Bool
  skip_if_connectivity_broken : Option SkipIfConnectivityBroken
  skip_if_sd_active : Option SkipIfSdActive
deriving DecidableEq, Repr

/-- `otypes.Display`. -/
structure Display where
  proxy : Option String
deriving DecidableEq, Repr

/-- `otypes.MemoryOverCommit`. -/
structure MemoryOverCommit where
  percent : Option Int
deriving DecidableEq, Repr

/-- `otypes.MemoryPolicy`. -/
structure MemoryPolicy where
  over_commit : Option MemoryOverCommit
deriving DecidableEq, Repr

/-- `otypes.Ksm`. -/
structure Ksm where
  enabled : Option Bool
  merge_across_nodes : Option Bool
deriving DecidableEq, Repr

/-- `otypes.DataCenter(name=...)`. -/
structure DataCenterRef where
  name : Option String
deriving DecidableEq, Repr

/-- `otypes.Network(name=...)`. -/
structure NetworkRef where
  name : Option String
deriving DecidableEq, Repr

/-- `otypes.Cpu`. -/
structure Cpu where
  architecture : Option String
  type : Option String
deriving DecidableEq, Repr

/-- `otypes.Version`. -/
structure VersionT where
  major : Option Int
  minor : Option Int
deriving DecidableEq, Repr

/-- `otypes.Cluster`: only the fields this module reads or writes.
All fields are optional, as in the SDK. -/
structure Cluster where
  id : Option String := none
  name : Option String := none
  comment : Option String := none
  description : Option String := none
  ballooning_enabled : Option Bool := none
  gluster_service : Option Bool := none
  virt_service : Option Bool := none
  threads_as_cores : Option Bool := none
  ha_reservation : Option Bool := none
  trusted_service : Option Bool := none
  optional_reason : Option Bool := none
  maintenance_reason_required : Option Bool := none
  scheduling_policy : Option SchedulingPolicyRef := none
  serial_number : Option SerialNumber := none
  migration : Option MigrationOptions := none
  error_handling : Option ErrorHandling := none
  fencing_policy : Option FencingPolicy := none
  display : Option Display := none
  required_rng_sources : Option (List String) := none
  memory_policy : Option MemoryPolicy := none
  ksm : Option Ksm := none
  data_center : Option DataCenterRef := none
  management_network : Option NetworkRef := none
  cpu : Option Cpu := none
  version : Option VersionT := none
  switch_type : Option String := none
deriving DecidableEq, Repr

/-- The remote system as seen through the connection: the
scheduling-policies collection, the clusters collection, and the id the
service assigns to a newly added cluster. -/
structure Env where
  sched_policies : List SchedPolicy
  clusters : List Cluster
  fresh_id : String
deriving DecidableEq, Repr

/-! ## External framework helpers, modelled from the spec -/

/-- Modelled from the spec: the flat equality check `equal` of the
external idempotency helper (`ansible.module_utils.ovirt`); an
unspecified (`None`) desired value is ignored and matches anything,
otherwise the two values are compared for equality. -/
def equal [DecidableEq α] (p v : Option α) : Bool :=
  match p with
  | none => true
  | some a => decide (v = some a)

/-- Modelled from the spec: `search_by_name` against the remote
scheduling-policies service — lookup of an entity by name. -/
def search_by_name (xs : List SchedPolicy) (n : Option String) : Option SchedPolicy :=
  xs.find? (fun sp => some sp.name == n)

/-- Modelled from the spec: lookup of a cluster by name against the
remote clusters service (`search_by_name` in `BaseModule.create/remove`). -/
def search_cluster (cs : List Cluster) (n : Option String) : Option Cluster :=
  cs.find? (fun c => c.name == n)

/-! ## The module's own functions (from the source) -/

/-- `ClustersModule._get_memory_policy` (lines 299-306). -/
def get_memory_policy (p : Params) : Option Int :=
  match p.memory_policy with
  | some "desktop" => some 200
  | some "server" => some 150
  | some "disabled" => some 100
  | _ => none

/-- `ClustersModule._get_policy_id` (lines 308-319). -/
def get_policy_id (p : Params) : Option String :=
  match p.migration_policy with
  | some "legacy" => some "00000000-0000-0000-0000-000000000000"
  | some "minimal_downtime" => some "80554327-0569-496b-bdeb-fcbbf52b827b"
  | some "suspend_workload" => some "80554327-0569-496b-bdeb-fcbbf52b827c"
  | _ => none

/-- `ClustersModule.__get_major` applied to the string parameter
`compatibility_version` (lines 282-287, the `split`/`int` branch). -/
def get_major_of_str (s : Option String) : Except String (Option Int) :=
  match s with
  | none => Except.ok none
  | some str => (pyInt ((str.splitOn ".").headD "")).map some

/-- `ClustersModule.__get_minor` applied to the string parameter
`compatibility_version` (lines 289-294); raises `IndexError` when the
string has no `.`-separated minor component. -/
def get_minor_of_str (s : Option String) : Except String (Option Int) :=
  match s with
  | none => Except.ok none
  | some str =>
    match str.splitOn "." with
    | _ :: m :: _ => (pyInt m).map some
    | _ => Except.error "IndexError: list index out of range"

/-- `ClustersModule.__get_major` applied to the entity's
`otypes.Version` (the `isinstance` branch). -/
def get_major_of_ver (v : Option VersionT) : Option Int :=
  match v with
  | none => none
  | some x => x.major

/-- `ClustersModule.__get_minor` applied to the entity's
`otypes.Version` (the `isinstance` branch). -/
def get_minor_of_ver (v : Option VersionT) : Option Int :=
  match v with
  | none => none
  | some x => x.minor

/-- `ClustersModule._get_sched_policy` (lines 321-329): only when the
`serial_policy` parameter is truthy does it search the remote
scheduling-policies service, by the `scheduling_policy` parameter name,
raising when nothing is found; otherwise it returns `None` without any
remote call. -/
def get_sched_policy (p : Params) (env : Env) : Eff (Option SchedPolicy) :=
  if truthyS p.serial_policy then
    effBind (emitCall (ApiCall.schedPoliciesSearch p.scheduling_policy)) (fun _ =>
      match search_by_name env.sched_policies p.scheduling_policy with
      | some sp => effPure (some sp)
      | none =>
        effThrow ("Scheduling policy " ++ pyStr p.scheduling_policy ++ " was not found"))
  else effPure none

/-- The `otypes.Version` argument of `build_entity` (lines 438-441):
evaluated only when `compatibility_version` is truthy; `major` is
computed before `minor`, each may raise. -/
def computeVersion (p : Params) : Eff (Option VersionT) :=
  if truthyS p.compatibility_version then
    effBind (liftE (get_major_of_str p.compatibility_version)) (fun ma =>
      effBind (liftE (get_minor_of_str p.compatibility_version)) (fun mi =>
        effPure (some ⟨ma, mi⟩)))
  else effPure none

/-- The pure part of `ClustersModule.build_entity` (lines 331-445): the
`otypes.Cluster` keyword arguments, given the already-computed
scheduling-policy lookup result and version.  The SDK enum constructors
(`otypes.SerialNumberPolicy`, `otypes.InheritableBoolean`, ...) are
modelled as the identity on the underlying value string, per the spec's
external-collaborator boundary ("a set of typed value objects"). -/
def build_core (p : Params) (sched : Option SchedPolicy) (ver : Option VersionT) : Cluster :=
  { name := p.name
    comment := p.comment
    description := p.description
    ballooning_enabled := p.ballooning
    gluster_service := p.gluster
    virt_service := p.virt
    threads_as_cores := p.threads_as_cores
    ha_reservation := p.ha_reservation
    trusted_service := p.trusted_service
    optional_reason := p.vm_reason
    maintenance_reason_required := p.host_reason
    scheduling_policy := sched.map (fun sp => ⟨some sp.id⟩)
    serial_number :=
      if p.serial_policy ≠ none ∨ p.serial_policy_value ≠ none then
        some ⟨p.serial_policy, p.serial_policy_value⟩
      else none
    migration :=
      if p.migration_bandwidth ≠ none ∨ p.migration_bandwidth_limit ≠ none ∨
          p.migration_auto_converge ≠ none ∨ p.migration_compressed ≠ none ∨
          p.migration_policy ≠ none then
        some
          { auto_converge :=
              if truthyS p.migration_auto_converge then p.migration_auto_converge else none
            bandwidth :=
              if truthyS p.migration_bandwidth || truthyI p.migration_bandwidth_limit then
                some ⟨(if truthyS p.migration_bandwidth then p.migration_bandwidth else none),
                      p.migration_bandwidth_limit⟩
              else none
            compressed :=
              if truthyS p.migration_compressed then p.migration_compressed else none
            policy :=
              if truthyS p.migration_policy then some ⟨get_policy_id p⟩ else none }
      else none
    error_handling :=
      if truthyS p.resilience_policy then some ⟨p.resilience_policy⟩ else none
    fencing_policy :=
      if p.fence_enabled ≠ none ∨ p.fence_skip_if_sd_active ≠ none ∨
          p.fence_skip_if_connectivity_broken ≠ none ∨
          p.fence_connectivity_threshold ≠ none then
        some
          { enabled :=
              pyOr (pyOr p.fence_enabled p.fence_skip_if_connectivity_broken)
                p.fence_skip_if_sd_active
            skip_if_connectivity_broken :=
              if p.fence_skip_if_connectivity_broken ≠ none ∨
                  p.fence_connectivity_threshold ≠ none then
                some ⟨p.fence_skip_if_connectivity_broken, p.fence_connectivity_threshold⟩
              else none
            skip_if_sd_active :=
              if truthyB p.fence_skip_if_sd_active then
                some ⟨p.fence_skip_if_sd_active⟩
              else none }
      else none
    display := if truthyS p.spice_proxy then some ⟨p.spice_proxy⟩ else none
    required_rng_sources :=
      if truthyL p.rng_sources then some (p.rng_sources.getD []) else none
    memory_policy :=
      if truthyS p.memory_policy then some ⟨some ⟨get_memory_policy p⟩⟩ else none
    ksm :=
      if p.ksm_numa ≠ none ∨ p.ksm ≠ none then
        some ⟨pyOr p.ksm p.ksm_numa, some (pyNot p.ksm_numa)⟩
      else none
    data_center := if truthyS p.datacenter then some ⟨p.datacenter⟩ else none
    management_network := if truthyS p.network then some ⟨p.network⟩ else none
    cpu :=
      if truthyS p.cpu_arch || truthyS p.cpu_type then
        some ⟨p.cpu_arch, p.cpu_type⟩
      else none
    version := ver
    switch_type := if truthyS p.switch_type then p.switch_type else none }

/-- `ClustersModule.build_entity` (lines 331-445): the scheduling-policy
lookup runs first (it may raise and may call the remote service), then
the version parse (it may raise), then the cluster value is assembled. -/
def build_entity (p : Params) (env : Env) : Eff Cluster :=
  effBind (get_sched_policy p env) (fun sched =>
    effBind (computeVersion p) (fun ver =>
      effPure (build_core p sched ver)))

/-! ## `ClustersModule.update_check` (lines 447-490)

The Python function is one large short-circuiting `and`-chain of
`equal(...)` conjuncts.  Each conjunct is embedded as an `Eff Bool`
whose evaluation performs the (eager, left-to-right) evaluation of the
arguments of `equal`, which may dereference `None` and raise.  The
chain itself is `andAllM`, which evaluates conjuncts in order and stops
at the first `False`. -/

/-- Short-circuiting conjunction of effectful booleans (Python `and`
over a chain of `equal(...)` calls, each of which returns a real bool). -/
def andAllM : List (Eff Bool) → Eff Bool
  | [] => effPure true
  | c :: cs => effBind c (fun b => if b then andAllM cs else effPure false)

/-- Line 449: `equal(comment, entity.comment)`. -/
def conj1 (p : Params) (e : Cluster) (_env : Env) : Eff Bool :=
  effPure (equal p.comment e.comment)

/-- Line 450: `equal(description, entity.description)`. -/
def conj2 (p : Params) (e : Cluster) (_env : Env) : Eff Bool :=
  effPure (equal p.description e.description)

/-- Line 451: `equal(switch_type, str(entity.switch_type))`. -/
def conj3 (p : Params) (e : Cluster) (_env : Env) : Eff Bool :=
  effPure (equal p.switch_type (some (pyStr e.switch_type)))

/-- Line 452: `equal(cpu_arch, str(entity.cpu.architecture))` —
dereferences `entity.cpu`. -/
def conj4 (p : Params) (e : Cluster) (_env : Env) : Eff Bool :=
  effBind (getAttr e.cpu "architecture") (fun c =>
    effPure (equal p.cpu_arch (some (pyStr c.architecture))))

/-- Line 453: `equal(cpu_type, entity.cpu.type)`. -/
def conj5 (p : Params) (e : Cluster) (_env : Env) : Eff Bool :=
  effBind (getAttr e.cpu "type") (fun c =>
    effPure (equal p.cpu_type c.type))

/-- Line 454: `equal(ballooning, entity.ballooning_enabled)`. -/
def conj6 (p : Params) (e : Cluster) (_env : Env) : Eff Bool :=
  effPure (equal p.ballooning e.ballooning_enabled)

/-- Line 455: `equal(gluster, entity.gluster_service)`. -/
def conj7 (p : Params) (e : Cluster) (_env : Env) : Eff Bool :=
  effPure (equal p.gluster e.gluster_service)

/-- Line 456: `equal(virt, entity.virt_service)`. -/
def conj8 (p : Params) (e : Cluster) (_env : Env) : Eff Bool :=
  effPure (equal p.virt e.virt_service)

/-- Line 457: `equal(threads_as_cores, entity.threads_as_cores)`. -/
def conj9 (p : Params) (e : Cluster) (_env : Env) : Eff Bool :=
  effPure (equal p.threads_as_cores e.threads_as_cores)

/-- Line 458: `equal(ksm_numa, not entity.ksm.merge_across_nodes and
entity.ksm.enabled)` — dereferences `entity.ksm`; the Python `and`
returns `False` itself when `not merge_across_nodes` is false. -/
def conj10 (p : Params) (e : Cluster) (_env : Env) : Eff Bool :=
  effBind (getAttr e.ksm "merge_across_nodes") (fun k =>
    effPure (equal p.ksm_numa
      (if pyNot k.merge_across_nodes then k.enabled else some false)))

/-- Line 459: `equal(ksm, entity.ksm.merge_across_nodes and
entity.ksm.enabled)`. -/
def conj11 (p : Params) (e : Cluster) (_env : Env) : Eff Bool :=
  effBind (getAttr e.ksm "merge_across_nodes") (fun k =>
    effPure (equal p.ksm (pyAnd k.merge_across_nodes k.enabled)))

/-- Line 460: `equal(ha_reservation, entity.ha_reservation)`. -/
def conj12 (p : Params) (e : Cluster) (_env : Env) : Eff Bool :=
  effPure (equal p.ha_reservation e.ha_reservation)

/-- Line 461: `equal(trusted_service, entity.trusted_service)`. -/
def conj13 (p : Params) (e : Cluster) (_env : Env) : Eff Bool :=
  effPure (equal p.trusted_service e.trusted_service)

/-- Line 462: `equal(host_reason, entity.maintenance_reason_required)`. -/
def conj14 (p : Params) (e : Cluster) (_env : Env) : Eff Bool :=
  effPure (equal p.host_reason e.maintenance_reason_required)

/-- Line 463: `equal(vm_reason, entity.optional_reason)`. -/
def conj15 (p : Params) (e : Cluster) (_env : Env) : Eff Bool :=
  effPure (equal p.vm_reason e.optional_reason)

/-- Line 464: `equal(spice_proxy, getattr(entity.display, 'proxy',
None))` — the only guarded attribute access in the function. -/
def conj16 (p : Params) (e : Cluster) (_env : Env) : Eff Bool :=
  effPure (equal p.spice_proxy (e.display.bind Display.proxy))

/-- Line 465: `equal(fence_enabled, entity.fencing_policy.enabled)`. -/
def conj17 (p : Params) (e : Cluster) (_env : Env) : Eff Bool :=
  effBind (getAttr e.fencing_policy "enabled") (fun f =>
    effPure (equal p.fence_enabled f.enabled))

/-- Line 466: `equal(fence_skip_if_sd_active,
entity.fencing_policy.skip_if_sd_active.enabled)`. -/
def conj18 (p : Params) (e : Cluster) (_env : Env) : Eff Bool :=
  effBind (getAttr e.fencing_policy "skip_if_sd_active") (fun f =>
    effBind (getAttr f.skip_if_sd_active "enabled") (fun s =>
      effPure (equal p.fence_skip_if_sd_active s.enabled)))

/-- Line 467: `equal(fence_skip_if_connectivity_broken,
entity.fencing_policy.skip_if_connectivity_broken.enabled)`. -/
def conj19 (p : Params) (e : Cluster) (_env : Env) : Eff Bool :=
  effBind (getAttr e.fencing_policy "skip_if_connectivity_broken") (fun f =>
    effBind (getAttr f.skip_if_connectivity_broken "enabled") (fun s =>
      effPure (equal p.fence_skip_if_connectivity_broken s.enabled)))

/-- Line 468: `equal(fence_connectivity_threshold,
entity.fencing_policy.skip_if_connectivity_broken.threshold)`. -/
def conj20 (p : Params) (e : Cluster) (_env : Env) : Eff Bool :=
  effBind (getAttr e.fencing_policy "skip_if_connectivity_broken") (fun f =>
    effBind (getAttr f.skip_if_connectivity_broken "threshold") (fun s =>
      effPure (equal p.fence_connectivity_threshold s.threshold)))

/-- Line 469: `equal(resilience_policy, str(entity.error_handling.on_error))`. -/
def conj21 (p : Params) (e : Cluster) (_env : Env) : Eff Bool :=
  effBind (getAttr e.error_handling "on_error") (fun eh =>
    effPure (equal p.resilience_policy (some (pyStr eh.on_error))))

/-- Line 470: `equal(migration_bandwidth,
str(entity.migration.bandwidth.assignment_method))`. -/
def conj22 (p : Params) (e : Cluster) (_env : Env) : Eff Bool :=
  effBind (getAttr e.migration "bandwidth") (fun m =>
    effBind (getAttr m.bandwidth "assignment_method") (fun b =>
      effPure (equal p.migration_bandwidth (some (pyStr b.assignment_method)))))

/-- Line 471: `equal(migration_auto_converge, str(entity.migration.auto_converge))`. -/
def conj23 (p : Params) (e : Cluster) (_env : Env) : Eff Bool :=
  effBind (getAttr e.migration "auto_converge") (fun m =>
    effPure (equal p.migration_auto_converge (some (pyStr m.auto_converge))))

/-- Line 472: `equal(migration_compressed, str(entity.migration.compressed))`. -/
def conj24 (p : Params) (e : Cluster) (_env : Env) : Eff Bool :=
  effBind (getAttr e.migration "compressed") (fun m =>
    effPure (equal p.migration_compressed (some (pyStr m.compressed))))

/-- Line 473: `equal(serial_policy, str(entity.serial_number.policy))`. -/
def conj25 (p : Params) (e : Cluster) (_env : Env) : Eff Bool :=
  effBind (getAttr e.serial_number "policy") (fun sn =>
    effPure (equal p.serial_policy (some (pyStr sn.policy))))

/-- Line 474: `equal(serial_policy_value, entity.serial_number.value)`. -/
def conj26 (p : Params) (e : Cluster) (_env : Env) : Eff Bool :=
  effBind (getAttr e.serial_number "value") (fun sn =>
    effPure (equal p.serial_policy_value sn.value))

/-- Line 475: `equal(scheduling_policy, self._get_sched_policy().name)` —
re-runs the remote lookup and dereferences its result, which is `None`
whenever `serial_policy` is unset. -/
def conj27 (p : Params) (_e : Cluster) (env : Env) : Eff Bool :=
  effBind (get_sched_policy p env) (fun spo =>
    effBind (getAttr spo "name") (fun sp =>
      effPure (equal p.scheduling_policy (some sp.name))))

/-- Line 476: `equal(self._get_policy_id(), entity.migration.policy.id)`. -/
def conj28 (p : Params) (e : Cluster) (_env : Env) : Eff Bool :=
  effBind (getAttr e.migration "policy") (fun m =>
    effBind (getAttr m.policy "id") (fun pol =>
      effPure (equal (get_policy_id p) pol.id)))

/-- Line 477: `equal(self._get_memory_policy(),
entity.memory_policy.over_commit.percent)`. -/
def conj29 (p : Params) (e : Cluster) (_env : Env) : Eff Bool :=
  effBind (getAttr e.memory_policy "over_commit") (fun mp =>
    effBind (getAttr mp.over_commit "percent") (fun oc =>
      effPure (equal (get_memory_policy p) oc.percent)))

/-- Line 478: `equal(__get_minor(compatibility_version),
__get_minor(entity.version))` — the parameter side may raise on a
malformed version string. -/
def conj30 (p : Params) (e : Cluster) (_env : Env) : Eff Bool :=
  effBind (liftE (get_minor_of_str p.compatibility_version)) (fun a =>
    effPure (equal a (get_minor_of_ver e.version)))

/-- Line 479: `equal(__get_major(compatibility_version),
__get_major(entity.version))`. -/
def conj31 (p : Params) (e : Cluster) (_env : Env) : Eff Bool :=
  effBind (liftE (get_major_of_str p.compatibility_version)) (fun a =>
    effPure (equal a (get_major_of_ver e.version)))

/-- Lines 480-483: `equal(migration_bandwidth_limit if
migration_bandwidth == 'custom' else None,
entity.migration.bandwidth.custom_value)`. -/
def conj32 (p : Params) (e : Cluster) (_env : Env) : Eff Bool :=
  effBind (getAttr e.migration "bandwidth") (fun m =>
    effBind (getAttr m.bandwidth "custom_value") (fun b =>
      effPure (equal
        (if p.migration_bandwidth = some "custom" then p.migration_bandwidth_limit else none)
        b.custom_value)))

/-- Lines 484-489: `equal(sorted(rng_sources) if rng_sources else None,
sorted([str(source) for source in entity.required_rng_sources]))` —
iterating `entity.required_rng_sources` raises when it is `None`. -/
def conj33 (p : Params) (e : Cluster) (_env : Env) : Eff Bool :=
  match e.required_rng_sources with
  | none => effThrow "TypeError: NoneType object is not iterable"
  | some l =>
    effPure (equal
      (if truthyL p.rng_sources then some (sortStr (p.rng_sources.getD [])) else none)
      (some (sortStr l)))

/-- The conjunct list of `update_check`, in source order. -/
def conjuncts (p : Params) (e : Cluster) (env : Env) : List (Eff Bool) :=
  [conj1 p e env, conj2 p e env, conj3 p e env, conj4 p e env, conj5 p e env,
   conj6 p e env, conj7 p e env, conj8 p e env, conj9 p e env, conj10 p e env,
   conj11 p e env, conj12 p e env, conj13 p e env, conj14 p e env, conj15 p e env,
   conj16 p e env, conj17 p e env, conj18 p e env, conj19 p e env, conj20 p e env,
   conj21 p e env, conj22 p e env, conj23 p e env, conj24 p e env, conj25 p e env,
   conj26 p e env, conj27 p e env, conj28 p e env, conj29 p e env, conj30 p e env,
   conj31 p e env, conj32 p e env, conj33 p e env]

/-- `ClustersModule.update_check` (lines 447-490). -/
def update_check (p : Params) (e : Cluster) (env : Env) : Eff Bool :=
  andAllM (conjuncts p e env)

/-! ## The reconciler (`main`, lines 493-560) and the external
`BaseModule.create` / `BaseModule.remove`, modelled from the spec -/

/-- What the module returns on success: the changed flag, the managed
cluster's id and its attribute dictionary (the `RETURN` block of the
module documentation). -/
structure ModuleResult where
  changed : Bool
  id : Option String
  cluster : Option Cluster
deriving DecidableEq, Repr

/-- The resource representation returned for a cluster. -/
def mkResult (changed : Bool) (c : Cluster) : ModuleResult :=
  ⟨changed, c.id, some c⟩

/-- Modelled from the spec: the external `BaseModule.create` used for
`state: present` — "determines whether a matching resource exists
(lookup by name), and if so whether any tracked field differs from the
desired value; creates [or] updates the resource accordingly, returning
the resulting resource representation".  The lookup is one remote
search; an add or update is one further remote call, and the service
assigns `env.fresh_id` to a newly added cluster. -/
def module_create (p : Params) (env : Env) : Eff ModuleResult :=
  effBind (emitCall (ApiCall.clustersSearch p.name)) (fun _ =>
    match search_cluster env.clusters p.name with
    | none =>
      effBind (build_entity p env) (fun c =>
        effBind (emitCall ApiCall.clusterAdd) (fun _ =>
          effPure (mkResult true { c with id := some env.fresh_id })))
    | some e =>
      effBind (update_check p e env) (fun same =>
        if same then effPure (mkResult false e)
        else
          effBind (build_entity p env) (fun c =>
            effBind (emitCall ApiCall.clusterUpdate) (fun _ =>
              effPure (mkResult true { c with id := e.id })))))

/-- Modelled from the spec: the external `BaseModule.remove` used for
`state: absent` — lookup by name, delete when found (one remote call),
returning the deleted resource's representation; no change when the
cluster does not exist. -/
def module_remove (p : Params) (env : Env) : Eff ModuleResult :=
  effBind (emitCall (ApiCall.clustersSearch p.name)) (fun _ =>
    match search_cluster env.clusters p.name with
    | none => effPure ⟨false, none, none⟩
    | some e =>
      effBind (emitCall ApiCall.clusterRemove) (fun _ =>
        effPure (mkResult true e)))

/-- The validated `state` parameter (`choices: ['present', 'absent']`). -/
inductive StateParam where
  | present
  | absent
deriving DecidableEq, Repr

/-- The dispatch of `main` (lines 550-554): `present` runs the create
path, `absent` the remove path. -/
def main_run (st : StateParam) (p : Params) (env : Env) : Eff ModuleResult :=
  match st with
  | StateParam.present => module_create p env
  | StateParam.absent => module_remove p env

/-- The observable outcome of `main`: `module.exit_json(**ret)` on
success, `module.fail_json(msg=str(e), ...)` on any exception
(lines 556-558; `exit_json` / `fail_json` are external framework calls,
modelled from the spec as the two terminal outcomes). -/
inductive MainOutcome where
  | exitJson (ret : ModuleResult)
  | failJson (msg : String)
deriving DecidableEq, Repr

/-- `main` (lines 541-558): run the reconciler under a `try`, exit with
the result, or catch any exception and fail with its message. -/
def module_main (st : StateParam) (p : Params) (env : Env) : MainOutcome :=
  match (main_run st p env).res with
  | Except.ok r => MainOutcome.exitJson r
  | Except.error m => MainOutcome.failJson m

/-! ## Spec-side predicates

`updateCheckSpec` renders claim C1's words — "for every tracked field,
the corresponding module parameter is either unspecified (None, hence
ignored by `equal`) or equal to the entity's current value" — as a
total boolean function: one clause per tracked field, each clause true
when the parameter is `none`, and otherwise comparing against the
current value reached through the entity (a missing intermediate object
simply makes a specified parameter differ). -/

/-- Clause for line 452: desired `cpu_arch` against `str(cpu.architecture)`. -/
def clause4 (p : Params) (e : Cluster) : Bool :=
  match p.cpu_arch with
  | none => true
  | some v => decide (e.cpu.map (fun c => pyStr c.architecture) = some v)

/-- Clause for line 453. -/
def clause5 (p : Params) (e : Cluster) : Bool :=
  match p.cpu_type with
  | none => true
  | some v => decide (e.cpu.bind Cpu.type = some v)

/-- Clause for line 458 (the derived `ksm_numa` reading of the `Ksm`
sub-object). -/
def clause10 (p : Params) (e : Cluster) : Bool :=
  match p.ksm_numa with
  | none => true
  | some v =>
    decide (e.ksm.map (fun k =>
      if pyNot k.merge_across_nodes then k.enabled else some false) = some (some v))

/-- Clause for line 459 (the derived `ksm` reading of the `Ksm`
sub-object). -/
def clause11 (p : Params) (e : Cluster) : Bool :=
  match p.ksm with
  | none => true
  | some v =>
    decide (e.ksm.map (fun k => pyAnd k.merge_across_nodes k.enabled) = some (some v))

/-- Clause for line 465. -/
def clause17 (p : Params) (e : Cluster) : Bool :=
  match p.fence_enabled with
  | none => true
  | some v => decide (e.fencing_policy.map FencingPolicy.enabled = some (some v))

/-- Clause for line 466. -/
def clause18 (p : Params) (e : Cluster) : Bool :=
  match p.fence_skip_if_sd_active with
  | none => true
  | some v =>
    decide ((e.fencing_policy.bind FencingPolicy.skip_if_sd_active).map
      SkipIfSdActive.enabled = some (some v))

/-- Clause for line 467. -/
def clause19 (p : Params) (e : Cluster) : Bool :=
  match p.fence_skip_if_connectivity_broken with
  | none => true
  | some v =>
    decide ((e.fencing_policy.bind FencingPolicy.skip_if_connectivity_broken).map
      SkipIfConnectivityBroken.enabled = some (some v))

/-- Clause for line 468. -/
def clause20 (p : Params) (e : Cluster) : Bool :=
  match p.fence_connectivity_threshold with
  | none => true
  | some v =>
    decide ((e.fencing_policy.bind FencingPolicy.skip_if_connectivity_broken).map
      SkipIfConnectivityBroken.threshold = some (some v))

/-- Clause for line 469. -/
def clause21 (p : Params) (e : Cluster) : Bool :=
  match p.resilience_policy with
  | none => true
  | some v => decide (e.error_handling.map (fun eh => pyStr eh.on_error) = some v)

/-- Clause for line 470. -/
def clause22 (p : Params) (e : Cluster) : Bool :=
  match p.migration_bandwidth with
  | none => true
  | some v =>
    decide ((e.migration.bind MigrationOptions.bandwidth).map
      (fun b => pyStr b.assignment_method) = some v)

/-- Clause for line 471. -/
def clause23 (p : Params) (e : Cluster) : Bool :=
  match p.migration_auto_converge with
  | none => true
  | some v => decide (e.migration.map (fun m => pyStr m.auto_converge) = some v)

/-- Clause for line 472. -/
def clause24 (p : Params) (e : Cluster) : Bool :=
  match p.migration_compressed with
  | none => true
  | some v => decide (e.migration.map (fun m => pyStr m.compressed) = some v)

/-- Clause for line 473. -/
def clause25 (p : Params) (e : Cluster) : Bool :=
  match p.serial_policy with
  | none => true
  | some v => decide (e.serial_number.map (fun sn => pyStr sn.policy) = some v)

/-- Clause for line 474. -/
def clause26 (p : Params) (e : Cluster) : Bool :=
  match p.serial_policy_value with
  | none => true
  | some v => decide (e.serial_number.bind SerialNumber.value = some v)

/-- Clause for line 475: the desired `scheduling_policy` name against
the name of the remotely looked-up scheduling policy. -/
def clause27 (p : Params) (env : Env) : Bool :=
  match p.scheduling_policy with
  | none => true
  | some v =>
    decide ((search_by_name env.sched_policies p.scheduling_policy).map
      SchedPolicy.name = some v)

/-- Clause for line 476. -/
def clause28 (p : Params) (e : Cluster) : Bool :=
  match get_policy_id p with
  | none => true
  | some v =>
    decide ((e.migration.bind MigrationOptions.policy).bind
      MigrationPolicyRef.id = some v)

/-- Clause for line 477. -/
def clause29 (p : Params) (e : Cluster) : Bool :=
  match get_memory_policy p with
  | none => true
  | some v =>
    decide ((e.memory_policy.bind MemoryPolicy.over_commit).bind
      MemoryOverCommit.percent = some v)

/-- Clause for line 478 (false when the version string cannot be
parsed, in which case the code raises instead of returning). -/
def clause30 (p : Params) (e : Cluster) : Bool :=
  match get_minor_of_str p.compatibility_version with
  | Except.error _ => false
  | Except.ok a => equal a (get_minor_of_ver e.version)

/-- Clause for line 479. -/
def clause31 (p : Params) (e : Cluster) : Bool :=
  match get_major_of_str p.compatibility_version with
  | Except.error _ => false
  | Except.ok a => equal a (get_major_of_ver e.version)

/-- Clause for lines 480-483. -/
def clause32 (p : Params) (e : Cluster) : Bool :=
  match (if p.migration_bandwidth = some "custom"
         then p.migration_bandwidth_limit else none) with
  | none => true
  | some v =>
    decide ((e.migration.bind MigrationOptions.bandwidth).bind
      MigrationBandwidth.custom_value = some (v : Int))

/-- Clause for lines 484-489. -/
def clause33 (p : Params) (e : Cluster) : Bool :=
  match (if truthyL p.rng_sources
         then some (sortStr (p.rng_sources.getD [])) else none) with
  | none => true
  | some v => decide (e.required_rng_sources.map sortStr = some v)

/-- The clause list of the idempotency spec, in the order of the
tracked fields of `update_check`. -/
def clauses (p : Params) (e : Cluster) (env : Env) : List Bool :=
  [equal p.comment e.comment, equal p.description e.description,
   equal p.switch_type (some (pyStr e.switch_type)),
   clause4 p e, clause5 p e,
   equal p.ballooning e.ballooning_enabled, equal p.gluster e.gluster_service,
   equal p.virt e.virt_service, equal p.threads_as_cores e.threads_as_cores,
   clause10 p e, clause11 p e,
   equal p.ha_reservation e.ha_reservation, equal p.trusted_service e.trusted_service,
   equal p.host_reason e.maintenance_reason_required, equal p.vm_reason e.optional_reason,
   equal p.spice_proxy (e.display.bind Display.proxy),
   clause17 p e, clause18 p e, clause19 p e, clause20 p e, clause21 p e,
   clause22 p e, clause23 p e, clause24 p e, clause25 p e, clause26 p e,
   clause27 p env, clause28 p e, clause29 p e, clause30 p e, clause31 p e,
   clause32 p e, clause33 p e]

/-- C1's property as a total boolean: every tracked field's parameter
is unspecified or matches the entity's current value. -/
def updateCheckSpec (p : Params) (e : Cluster) (env : Env) : Bool :=
  (clauses p e env).all id

/-- Well-formed parameter values: string-valued parameters, when given,
are non-empty (the `choices`-validated ones can only take non-empty
values, and the free-form strings are normally non-empty), and a given
`rng_sources` list is non-empty.  Under this assumption Python
truthiness of a parameter coincides with it being specified. -/
def WFParams (p : Params) : Prop :=
  p.serial_policy ≠ some "" ∧ p.resilience_policy ≠ some "" ∧
  p.spice_proxy ≠ some "" ∧ p.rng_sources ≠ some [] ∧
  p.memory_policy ≠ some "" ∧ p.datacenter ≠ some "" ∧
  p.network ≠ some "" ∧ p.cpu_arch ≠ some "" ∧ p.cpu_type ≠ some "" ∧
  p.compatibility_version ≠ some "" ∧ p.switch_type ≠ some "" ∧
  p.migration_bandwidth ≠ some "" ∧ p.migration_auto_converge ≠ some "" ∧
  p.migration_compressed ≠ some "" ∧ p.migration_policy ≠ some "" ∧
  p.scheduling_policy ≠ some ""

/-- The decision-tree property of `build_entity`, group by group: each
optional sub-object of the produced cluster is present exactly when the
corresponding parameter group is specified — except the scheduling
policy, whose presence is gated on the `serial_policy` parameter. -/
def BuildGroupsSpec (p : Params) (c : Cluster) : Prop :=
  (c.scheduling_policy ≠ none ↔ truthyS p.serial_policy = true) ∧
  (c.serial_number ≠ none ↔ (p.serial_policy ≠ none ∨ p.serial_policy_value ≠ none)) ∧
  (c.migration ≠ none ↔
    (p.migration_bandwidth ≠ none ∨ p.migration_bandwidth_limit ≠ none ∨
     p.migration_auto_converge ≠ none ∨ p.migration_compressed ≠ none ∨
     p.migration_policy ≠ none)) ∧
  (c.error_handling ≠ none ↔ p.resilience_policy ≠ none) ∧
  (c.fencing_policy ≠ none ↔
    (p.fence_enabled ≠ none ∨ p.fence_skip_if_sd_active ≠ none ∨
     p.fence_skip_if_connectivity_broken ≠ none ∨
     p.fence_connectivity_threshold ≠ none)) ∧
  (c.display ≠ none ↔ p.spice_proxy ≠ none) ∧
  (c.required_rng_sources ≠ none ↔ p.rng_sources ≠ none) ∧
  (c.memory_policy ≠ none ↔ p.memory_policy ≠ none) ∧
  (c.ksm ≠ none ↔ (p.ksm_numa ≠ none ∨ p.ksm ≠ none)) ∧
  (c.data_center ≠ none ↔ p.datacenter ≠ none) ∧
  (c.management_network ≠ none ↔ p.network ≠ none) ∧
  (c.cpu ≠ none ↔ (p.cpu_arch ≠ none ∨ p.cpu_type ≠ none)) ∧
  (c.version ≠ none ↔ p.compatibility_version ≠ none) ∧
  (c.switch_type ≠ none ↔ p.switch_type ≠ none)

/-! ## Concrete inputs for counterexamples and witnesses -/

/-- A fully populated remote cluster whose fields all agree with an
all-unspecified parameter set (C1's counterexample entity). -/
def eC1 : Cluster :=
  { id := some "c1", name := some "one",
    cpu := some ⟨some "x86_64", some "Intel Conroe Family"⟩,
    ksm := some ⟨some true, some true⟩,
    fencing_policy := some
      { enabled := some true,
        skip_if_connectivity_broken := some ⟨some false, some 50⟩,
        skip_if_sd_active := some ⟨some true⟩ },
    error_handling := some ⟨some "migrate"⟩,
    migration := some
      { auto_converge := some "inherit",
        bandwidth := some ⟨some "auto", none⟩,
        compressed := some "inherit",
        policy := some ⟨some "00000000-0000-0000-0000-000000000000"⟩ },
    serial_number := some ⟨some "vm", none⟩,
    memory_policy := some ⟨some ⟨some 100⟩⟩,
    required_rng_sources := some ["random"],
    display := some ⟨some "proxy.example"⟩,
    version := some ⟨some 4, some 0⟩,
    switch_type := some "legacy" }

/-- An environment for C1's counterexample. -/
def envC1 : Env := ⟨[⟨"spid1", "policy_one"⟩], [], "fresh1"⟩

/-- Parameters for C1's witness: `serial_policy` set so the
scheduling-policy dereference succeeds, everything else matching. -/
def pC1w : Params :=
  { name := some "w1", serial_policy := some "vm",
    scheduling_policy := some "evenly_distributed" }

/-- Entity for C1's witness. -/
def eC1w : Cluster :=
  { eC1 with id := some "w1id", name := some "w1" }

/-- Environment for C1's witness: the searched scheduling policy exists. -/
def envC1w : Env := ⟨[⟨"sp1", "evenly_distributed"⟩], [], "freshw"⟩

/-- C3's counterexample parameters: `scheduling_policy` specified,
`serial_policy` not. -/
def pC3 : Params := { name := some "three", scheduling_policy := some "good_policy" }

/-- C3's counterexample environment: the named policy exists remotely. -/
def envC3 : Env := ⟨[⟨"gp1", "good_policy"⟩], [], "fresh3"⟩

/-- The cluster `build_entity` produces from `pC3`: the
`scheduling_policy` sub-object is omitted although the parameter is set. -/
def eC3 : Cluster := { name := some "three" }

/-- C3's witness parameters. -/
def pC3w : Params :=
  { name := some "w3", serial_policy := some "host",
    scheduling_policy := some "ed", ksm := some true,
    datacenter := some "dc" }

/-- C3's witness environment. -/
def envC3w : Env := ⟨[⟨"e1", "ed"⟩], [], "freshw3"⟩

/-- The cluster `build_entity` produces from `pC3w`. -/
def eC3w : Cluster :=
  { name := some "w3",
    scheduling_policy := some ⟨some "e1"⟩,
    serial_number := some ⟨some "host", none⟩,
    ksm := some ⟨some true, some true⟩,
    data_center := some ⟨some "dc"⟩ }

/-- C4's witness parameters: the scheduling-policy lookup will fail. -/
def pC4w : Params :=
  { name := some "four", serial_policy := some "vm",
    scheduling_policy := some "no_such_policy" }

/-- C4's witness environment: no scheduling policies remotely, no
cluster named `four`. -/
def envC4w : Env := ⟨[], [], "fresh4"⟩

/-- C5's witness parameters. -/
def pC5w : Params := { name := some "five", serial_policy := some "vm",
                       scheduling_policy := some "pol5" }

/-- C5's witness entity. -/
def eC5w : Cluster := { name := some "five" }

/-- C5's witness environments: same scheduling policies, different
clusters and fresh ids. -/
def envC5a : Env := ⟨[⟨"p5", "pol5"⟩], [], "fresh5a"⟩

/-- Second environment for C5's witness. -/
def envC5b : Env := ⟨[⟨"p5", "pol5"⟩], [{ name := some "five" }], "fresh5b"⟩

/-- C6's counterexample parameters. -/
def pC6 : Params :=
  { name := some "six", serial_policy := some "vm",
    scheduling_policy := some "pol6" }

/-- C6's counterexample environment. -/
def envC6 : Env := ⟨[⟨"sp6", "pol6"⟩], [], "six-id"⟩

/-- C7's failing input: an all-defaults parameter set (`serial_policy`
unset). -/
def pC7 : Params := { name := some "seven" }

/-- C7's failing input: a fully populated existing cluster that matches
the (unspecified) parameters on every tracked field. -/
def eC7 : Cluster :=
  { id := some "c7", name := some "seven",
    cpu := some ⟨some "ppc64", some "POWER8"⟩,
    ksm := some ⟨some false, some true⟩,
    fencing_policy := some
      { enabled := some false,
        skip_if_connectivity_broken := some ⟨some true, some 75⟩,
        skip_if_sd_active := some ⟨some false⟩ },
    error_handling := some ⟨some "do_not_migrate"⟩,
    migration := some
      { auto_converge := some "true",
        bandwidth := some ⟨some "custom", some 64⟩,
        compressed := some "false",
        policy := some ⟨some "80554327-0569-496b-bdeb-fcbbf52b827b"⟩ },
    serial_number := some ⟨some "host", some "sn"⟩,
    memory_policy := some ⟨some ⟨some 200⟩⟩,
    required_rng_sources := some ["hwrng", "random"],
    display := some ⟨some "spice.example"⟩,
    version := some ⟨some 4, some 1⟩,
    switch_type := some "ovs" }

/-- C7's failing-input environment. -/
def envC7 : Env := ⟨[⟨"sp7", "pol7"⟩], [eC7], "fresh7"⟩

/-- C8's failing input: `ksm: false` with `ksm_numa` unset (plus a cpu
group so the check reaches the ksm comparison without raising). -/
def pC8 : Params :=
  { name := some "eight", ksm := some false, cpu_arch := some "x86_64" }

/-- C8's environment. -/
def envC8 : Env := ⟨[], [], "fresh8"⟩

/-- The cluster `build_entity` produces from `pC8`: `Ksm.enabled` is
`None` because Python `False or None` is `None`. -/
def eC8 : Cluster :=
  { name := some "eight",
    cpu := some ⟨some "x86_64", none⟩,
    ksm := some ⟨none, some true⟩ }

/-- C9's witness parameters (lookup-failure side). -/
def pC9a : Params :=
  { name := some "nine", serial_policy := some "custom",
    scheduling_policy := some "missing_policy" }

/-- C9's witness parameters (serial unset side). -/
def pC9b : Params := { name := some "nine", scheduling_policy := some "present_policy" }

/-- C9's witness environment. -/
def envC9 : Env := ⟨[⟨"pp", "present_policy"⟩], [], "fresh9"⟩

/-- C2's witness-free characterization needs no dedicated inputs; this
environment hosts a found-cluster scenario reused in tests of the
reconciler characterization. -/
def envC2 : Env := ⟨[], [{ id := some "c2id", name := some "two" }], "fresh2"⟩

/-- Whether a remote call mutates the remote system (an add, update or
remove, as opposed to a read-only search). -/
def isMut : ApiCall → Bool
  | ApiCall.clusterAdd => true
  | ApiCall.clusterUpdate => true
  | ApiCall.clusterRemove => true
  | _ => false

/-! ## Basic lemmas about the effect type -/

theorem effBind_res_ok {α β : Type} {x : Eff α} {a : α} (f : α → Eff β)
    (h : x.res = Except.ok a) : (effBind x f).res = (f a).res := by
  simp [effBind, h]

theorem effBind_res_err {α β : Type} {x : Eff α} {m : String} (f : α → Eff β)
    (h : x.res = Except.error m) : (effBind x f).res = Except.error m := by
  simp [effBind, h]

theorem effBind_calls_ok {α β : Type} {x : Eff α} {a : α} (f : α → Eff β)
    (h : x.res = Except.ok a) : (effBind x f).calls = x.calls ++ (f a).calls := by
  simp [effBind, h]

theorem effBind_calls_err {α β : Type} {x : Eff α} {m : String} (f : α → Eff β)
    (h : x.res = Except.error m) : (effBind x f).calls = x.calls := by
  simp [effBind, h]

/-- A conjunct agrees with a spec boolean: whenever it returns normally,
it returns that boolean. -/
def Matches (c : Eff Bool) (s : Bool) : Prop :=
  ∀ b, c.res = Except.ok b → b = s

theorem matches_pure (x : Bool) : Matches (effPure x) x := by
  intro b h
  simpa [effPure] using h.symm

theorem andAllM_matches : ∀ {cs : List (Eff Bool)} {ss : List Bool},
    List.Forall₂ Matches cs ss → Matches (andAllM cs) (ss.all id)
  | _, _, List.Forall₂.nil => by
      intro b h
      simpa [andAllM, effPure] using h.symm
  | _, _, @List.Forall₂.cons _ _ _ c s cs ss hcs htail => by
      intro b h
      unfold andAllM at h
      cases hr : c.res with
      | error m => rw [effBind_res_err _ hr] at h; cases h
      | ok b0 =>
        rw [effBind_res_ok _ hr] at h
        have hb0 : b0 = s := hcs b0 hr
        subst hb0
        cases hb : b0 with
        | false =>
          rw [hb] at h
          simp [effPure] at h
          simp [List.all_cons, h, hb]
        | true =>
          rw [hb] at h
          have := andAllM_matches htail b h
          simp [List.all_cons, this, hb]

/-! ## Per-conjunct agreement of `update_check` with the idempotency spec -/

theorem matches_conj4 (p : Params) (e : Cluster) (env : Env) :
    Matches (conj4 p e env) (clause4 p e) := by
  intro b h
  unfold conj4 at h
  cases hc : e.cpu with
  | none => rw [hc] at h; simp [getAttr, effThrow, effBind] at h
  | some c =>
    rw [hc] at h
    simp [getAttr, effPure, effBind] at h
    subst h
    cases hv : p.cpu_arch <;> simp [clause4, equal, hc, hv]

theorem matches_conj10 (p : Params) (e : Cluster) (env : Env) :
    Matches (conj10 p e env) (clause10 p e) := by
  intro b h
  unfold conj10 at h
  cases hc : e.ksm with
  | none => rw [hc] at h; simp [getAttr, effThrow, effBind] at h
  | some k =>
    rw [hc] at h
    simp [getAttr, effPure, effBind] at h
    subst h
    cases hv : p.ksm_numa <;> simp [clause10, equal, hc, hv]

theorem matches_conj27 (p : Params) (e : Cluster) (env : Env) :
    Matches (conj27 p e env) (clause27 p env) := by
  intro b h
  unfold conj27 at h
  unfold get_sched_policy at h
  by_cases hts : truthyS p.serial_policy = true
  · rw [if_pos hts] at h
    cases hs : search_by_name env.sched_policies p.scheduling_policy with
    | none =>
      rw [hs] at h
      simp [emitCall, effThrow, effBind, getAttr, effPure] at h
    | some sp =>
      rw [hs] at h
      simp [emitCall, effThrow, effBind, getAttr, effPure] at h
      subst h
      cases hv : p.scheduling_policy with
      | none => simp [clause27, equal, hv]
      | some v =>
        rw [hv] at hs
        simp [clause27, equal, hs, hv]
  · rw [if_neg hts] at h
    simp [effPure, effBind, getAttr, effThrow] at h

theorem matches_conj1 (p : Params) (e : Cluster) (env : Env) :
    Matches (conj1 p e env) (equal p.comment e.comment) := matches_pure _

theorem matches_conj2 (p : Params) (e : Cluster) (env : Env) :
    Matches (conj2 p e env) (equal p.description e.description) := matches_pure _

theorem matches_conj3 (p : Params) (e : Cluster) (env : Env) :
    Matches (conj3 p e env) (equal p.switch_type (some (pyStr e.switch_type))) :=
  matches_pure _

theorem matches_conj5 (p : Params) (e : Cluster) (env : Env) :
    Matches (conj5 p e env) (clause5 p e) := by
  intro b h
  unfold conj5 at h
  cases hc : e.cpu with
  | none => rw [hc] at h; simp [getAttr, effThrow, effBind] at h
  | some c =>
    rw [hc] at h
    simp [getAttr, effPure, effBind] at h
    subst h
    cases hv : p.cpu_type <;> simp [clause5, equal, hc, hv]

theorem matches_conj6 (p : Params) (e : Cluster) (env : Env) :
    Matches (conj6 p e env) (equal p.ballooning e.ballooning_enabled) := matches_pure _

theorem matches_conj7 (p : Params) (e : Cluster) (env : Env) :
    Matches (conj7 p e env) (equal p.gluster e.gluster_service) := matches_pure _

theorem matches_conj8 (p : Params) (e : Cluster) (env : Env) :
    Matches (conj8 p e env) (equal p.virt e.virt_service) := matches_pure _

theorem matches_conj9 (p : Params) (e : Cluster) (env : Env) :
    Matches (conj9 p e env) (equal p.threads_as_cores e.threads_as_cores) := matches_pure _

theorem matches_conj11 (p : Params) (e : Cluster) (env : Env) :
    Matches (conj11 p e env) (clause11 p e) := by
  intro b h
  unfold conj11 at h
  cases hc : e.ksm with
  | none => rw [hc] at h; simp [getAttr, effThrow, effBind] at h
  | some k =>
    rw [hc] at h
    simp [getAttr, effPure, effBind] at h
    subst h
    cases hv : p.ksm <;> simp [clause11, equal, hc, hv]

theorem matches_conj12 (p : Params) (e : Cluster) (env : Env) :
    Matches (conj12 p e env) (equal p.ha_reservation e.ha_reservation) := matches_pure _

theorem matches_conj13 (p : Params) (e : Cluster) (env : Env) :
    Matches (conj13 p e env) (equal p.trusted_service e.trusted_service) := matches_pure _

theorem matches_conj14 (p : Params) (e : Cluster) (env : Env) :
    Matches (conj14 p e env) (equal p.host_reason e.maintenance_reason_required) :=
  matches_pure _

theorem matches_conj15 (p : Params) (e : Cluster) (env : Env) :
    Matches (conj15 p e env) (equal p.vm_reason e.optional_reason) := matches_pure _

theorem matches_conj16 (p : Params) (e : Cluster) (env : Env) :
    Matches (conj16 p e env) (equal p.spice_proxy (e.display.bind Display.proxy)) :=
  matches_pure _

theorem matches_conj17 (p : Params) (e : Cluster) (env : Env) :
    Matches (conj17 p e env) (clause17 p e) := by
  intro b h
  unfold conj17 at h
  cases hc : e.fencing_policy with
  | none => rw [hc] at h; simp [getAttr, effThrow, effBind] at h
  | some f =>
    rw [hc] at h
    simp [getAttr, effPure, effBind] at h
    subst h
    cases hv : p.fence_enabled <;> simp [clause17, equal, hc, hv]

theorem matches_conj18 (p : Params) (e : Cluster) (env : Env) :
    Matches (conj18 p e env) (clause18 p e) := by
  intro b h
  unfold conj18 at h
  cases hc : e.fencing_policy with
  | none => rw [hc] at h; simp [getAttr, effThrow, effBind] at h
  | some f =>
    rw [hc] at h
    simp only [getAttr, effBind, effPure] at h
    cases hs : f.skip_if_sd_active with
    | none => rw [hs] at h; simp [getAttr, effThrow, effPure, effBind] at h
    | some s =>
      rw [hs] at h
      simp [getAttr, effPure, effBind] at h
      subst h
      cases hv : p.fence_skip_if_sd_active <;> simp [clause18, equal, hc, hs, hv]

theorem matches_conj19 (p : Params) (e : Cluster) (env : Env) :
    Matches (conj19 p e env) (clause19 p e) := by
  intro b h
  unfold conj19 at h
  cases hc : e.fencing_policy with
  | none => rw [hc] at h; simp [getAttr, effThrow, effBind] at h
  | some f =>
    rw [hc] at h
    simp only [getAttr, effBind, effPure] at h
    cases hs : f.skip_if_connectivity_broken with
    | none => rw [hs] at h; simp [getAttr, effThrow, effPure, effBind] at h
    | some s =>
      rw [hs] at h
      simp [getAttr, effPure, effBind] at h
      subst h
      cases hv : p.fence_skip_if_connectivity_broken <;>
        simp [clause19, equal, hc, hs, hv]

theorem matches_conj20 (p : Params) (e : Cluster) (env : Env) :
    Matches (conj20 p e env) (clause20 p e) := by
  intro b h
  unfold conj20 at h
  cases hc : e.fencing_policy with
  | none => rw [hc] at h; simp [getAttr, effThrow, effBind] at h
  | some f =>
    rw [hc] at h
    simp only [getAttr, effBind, effPure] at h
    cases hs : f.skip_if_connectivity_broken with
    | none => rw [hs] at h; simp [getAttr, effThrow, effPure, effBind] at h
    | some s =>
      rw [hs] at h
      simp [getAttr, effPure, effBind] at h
      subst h
      cases hv : p.fence_connectivity_threshold <;>
        simp [clause20, equal, hc, hs, hv]

theorem matches_conj21 (p : Params) (e : Cluster) (env : Env) :
    Matches (conj21 p e env) (clause21 p e) := by
  intro b h
  unfold conj21 at h
  cases hc : e.error_handling with
  | none => rw [hc] at h; simp [getAttr, effThrow, effBind] at h
  | some eh =>
    rw [hc] at h
    simp [getAttr, effPure, effBind] at h
    subst h
    cases hv : p.resilience_policy <;> simp [clause21, equal, hc, hv]

theorem matches_conj22 (p : Params) (e : Cluster) (env : Env) :
    Matches (conj22 p e env) (clause22 p e) := by
  intro b h
  unfold conj22 at h
  cases hc : e.migration with
  | none => rw [hc] at h; simp [getAttr, effThrow, effBind] at h
  | some m =>
    rw [hc] at h
    simp only [getAttr, effBind, effPure] at h
    cases hs : m.bandwidth with
    | none => rw [hs] at h; simp [getAttr, effThrow, effPure, effBind] at h
    | some bw =>
      rw [hs] at h
      simp [getAttr, effPure, effBind] at h
      subst h
      cases hv : p.migration_bandwidth <;> simp [clause22, equal, hc, hs, hv]

theorem matches_conj23 (p : Params) (e : Cluster) (env : Env) :
    Matches (conj23 p e env) (clause23 p e) := by
  intro b h
  unfold conj23 at h
  cases hc : e.migration with
  | none => rw [hc] at h; simp [getAttr, effThrow, effBind] at h
  | some m =>
    rw [hc] at h
    simp [getAttr, effPure, effBind] at h
    subst h
    cases hv : p.migration_auto_converge <;> simp [clause23, equal, hc, hv]

theorem matches_conj24 (p : Params) (e : Cluster) (env : Env) :
    Matches (conj24 p e env) (clause24 p e) := by
  intro b h
  unfold conj24 at h
  cases hc : e.migration with
  | none => rw [hc] at h; simp [getAttr, effThrow, effBind] at h
  | some m =>
    rw [hc] at h
    simp [getAttr, effPure, effBind] at h
    subst h
    cases hv : p.migration_compressed <;> simp [clause24, equal, hc, hv]

theorem matches_conj25 (p : Params) (e : Cluster) (env : Env) :
    Matches (conj25 p e env) (clause25 p e) := by
  intro b h
  unfold conj25 at h
  cases hc : e.serial_number with
  | none => rw [hc] at h; simp [getAttr, effThrow, effBind] at h
  | some sn =>
    rw [hc] at h
    simp [getAttr, effPure, effBind] at h
    subst h
    cases hv : p.serial_policy <;> simp [clause25, equal, hc, hv]

theorem matches_conj26 (p : Params) (e : Cluster) (env : Env) :
    Matches (conj26 p e env) (clause26 p e) := by
  intro b h
  unfold conj26 at h
  cases hc : e.serial_number with
  | none => rw [hc] at h; simp [getAttr, effThrow, effBind] at h
  | some sn =>
    rw [hc] at h
    simp [getAttr, effPure, effBind] at h
    subst h
    cases hv : p.serial_policy_value <;> simp [clause26, equal, hc, hv]

theorem matches_conj28 (p : Params) (e : Cluster) (env : Env) :
    Matches (conj28 p e env) (clause28 p e) := by
  intro b h
  unfold conj28 at h
  cases hc : e.migration with
  | none => rw [hc] at h; simp [getAttr, effThrow, effBind] at h
  | some m =>
    rw [hc] at h
    simp only [getAttr, effBind, effPure] at h
    cases hs : m.policy with
    | none => rw [hs] at h; simp [getAttr, effThrow, effPure, effBind] at h
    | some pol =>
      rw [hs] at h
      simp [getAttr, effPure, effBind] at h
      subst h
      cases hv : get_policy_id p <;> simp [clause28, equal, hc, hs, hv]

theorem matches_conj29 (p : Params) (e : Cluster) (env : Env) :
    Matches (conj29 p e env) (clause29 p e) := by
  intro b h
  unfold conj29 at h
  cases hc : e.memory_policy with
  | none => rw [hc] at h; simp [getAttr, effThrow, effBind] at h
  | some mp =>
    rw [hc] at h
    simp only [getAttr, effBind, effPure] at h
    cases hs : mp.over_commit with
    | none => rw [hs] at h; simp [getAttr, effThrow, effPure, effBind] at h
    | some oc =>
      rw [hs] at h
      simp [getAttr, effPure, effBind] at h
      subst h
      cases hv : get_memory_policy p <;> simp [clause29, equal, hc, hs, hv]

theorem matches_conj30 (p : Params) (e : Cluster) (env : Env) :
    Matches (conj30 p e env) (clause30 p e) := by
  intro b h
  unfold conj30 at h
  cases hg : get_minor_of_str p.compatibility_version with
  | error m => rw [hg] at h; simp [liftE, effBind] at h
  | ok a =>
    rw [hg] at h
    simp [liftE, effPure, effBind] at h
    subst h
    simp [clause30, hg]

theorem matches_conj31 (p : Params) (e : Cluster) (env : Env) :
    Matches (conj31 p e env) (clause31 p e) := by
  intro b h
  unfold conj31 at h
  cases hg : get_major_of_str p.compatibility_version with
  | error m => rw [hg] at h; simp [liftE, effBind] at h
  | ok a =>
    rw [hg] at h
    simp [liftE, effPure, effBind] at h
    subst h
    simp [clause31, hg]

theorem matches_conj32 (p : Params) (e : Cluster) (env : Env) :
    Matches (conj32 p e env) (clause32 p e) := by
  intro b h
  unfold conj32 at h
  cases hc : e.migration with
  | none => rw [hc] at h; simp [getAttr, effThrow, effBind] at h
  | some m =>
    rw [hc] at h
    simp only [getAttr, effBind, effPure] at h
    cases hs : m.bandwidth with
    | none => rw [hs] at h; simp [getAttr, effThrow, effPure, effBind] at h
    | some bw =>
      rw [hs] at h
      simp [getAttr, effPure, effBind] at h
      subst h
      cases hv : (if p.migration_bandwidth = some "custom"
                  then p.migration_bandwidth_limit else none) <;>
        simp [clause32, equal, hc, hs, hv]

theorem matches_conj33 (p : Params) (e : Cluster) (env : Env) :
    Matches (conj33 p e env) (clause33 p e) := by
  intro b h
  unfold conj33 at h
  cases hc : e.required_rng_sources with
  | none => rw [hc] at h; simp [effThrow] at h
  | some l =>
    rw [hc] at h
    simp [effPure] at h
    subst h
    cases hv : (if truthyL p.rng_sources
                then some (sortStr (p.rng_sources.getD [])) else none) <;>
      simp [clause33, equal, hc, hv]

/-- C1 (counterexample): with every parameter unspecified and a fully
populated matching remote cluster, every tracked field satisfies
"unspecified or equal" (`updateCheckSpec` is true), yet `update_check`
does not return `True` — it raises, dereferencing the `None` returned
by `_get_sched_policy()` because `serial_policy` is unset.  Hence
`update_check` does not return `True` exactly when all tracked fields
match. -/
theorem c1_counterexample :
    (update_check {} eC1 envC1).res =
      Except.error "AttributeError: NoneType object has no attribute name" ∧
    updateCheckSpec {} eC1 envC1 = true := by
  constructor
  · rfl
  · rfl

/-- C1 (amended): whenever `update_check` returns a boolean (rather
than raising), that boolean is `True` exactly when every tracked
field's parameter is unspecified (ignored by `equal`) or equal to the
entity's current value; in particular no difference is ever reported
for an unspecified parameter. -/
theorem c1_update_check_agrees_spec (p : Params) (e : Cluster) (env : Env)
    (b : Bool) (h : (update_check p e env).res = Except.ok b) :
    b = updateCheckSpec p e env := by
  have hf : List.Forall₂ Matches (conjuncts p e env) (clauses p e env) :=
    List.Forall₂.cons (matches_conj1 p e env) (List.Forall₂.cons (matches_conj2 p e env) (List.Forall₂.cons (matches_conj3 p e env) (List.Forall₂.cons (matches_conj4 p e env) (List.Forall₂.cons (matches_conj5 p e env) (List.Forall₂.cons (matches_conj6 p e env) (List.Forall₂.cons (matches_conj7 p e env) (List.Forall₂.cons (matches_conj8 p e env) (List.Forall₂.cons (matches_conj9 p e env) (List.Forall₂.cons (matches_conj10 p e env) (List.Forall₂.cons (matches_conj11 p e env) (List.Forall₂.cons (matches_conj12 p e env) (List.Forall₂.cons (matches_conj13 p e env) (List.Forall₂.cons (matches_conj14 p e env) (List.Forall₂.cons (matches_conj15 p e env) (List.Forall₂.cons (matches_conj16 p e env) (List.Forall₂.cons (matches_conj17 p e env) (List.Forall₂.cons (matches_conj18 p e env) (List.Forall₂.cons (matches_conj19 p e env) (List.Forall₂.cons (matches_conj20 p e env) (List.Forall₂.cons (matches_conj21 p e env) (List.Forall₂.cons (matches_conj22 p e env) (List.Forall₂.cons (matches_conj23 p e env) (List.Forall₂.cons (matches_conj24 p e env) (List.Forall₂.cons (matches_conj25 p e env) (List.Forall₂.cons (matches_conj26 p e env) (List.Forall₂.cons (matches_conj27 p e env) (List.Forall₂.cons (matches_conj28 p e env) (List.Forall₂.cons (matches_conj29 p e env) (List.Forall₂.cons (matches_conj30 p e env) (List.Forall₂.cons (matches_conj31 p e env) (List.Forall₂.cons (matches_conj32 p e env) (List.Forall₂.cons (matches_conj33 p e env) List.Forall₂.nil))))))))))))))))))))))))))))))))
  unfold updateCheckSpec
  exact andAllM_matches hf b h

/-- C1 (witness): a run in which `update_check` does return a boolean
(`serial_policy` is set and the scheduling-policy lookup succeeds):
here it returns `True` and the spec agrees. -/
theorem c1_witness :
    (update_check pC1w eC1w envC1w).res = Except.ok true ∧
    true = updateCheckSpec pC1w eC1w envC1w := by
  constructor
  · rfl
  · exact c1_update_check_agrees_spec pC1w eC1w envC1w true (by rfl)

/-- C7: evaluating `update_check` at the failing input — an existing,
fully populated, fully matching cluster with `serial_policy` unset —
raises (`self._get_sched_policy()` returns `None` and `.name` is taken
on it) instead of returning a boolean, so `update_check` is not total. -/
theorem c7_update_check_raises :
    (update_check pC7 eC7 envC7).res =
      Except.error "AttributeError: NoneType object has no attribute name" := by
  rfl

/-- C8: evaluating the build/check round trip at the failing input
`ksm: false` (with `ksm_numa` unset): `build_entity` produces
`Ksm(enabled=None)` (Python `False or None`), and `update_check` run on
that very entity returns `False` — a spurious difference. -/
theorem c8_round_trip_fails :
    (build_entity pC8 envC8).res = Except.ok eC8 ∧
    (update_check pC8 eC8 envC8).res = Except.ok false := by
  exact ⟨rfl, rfl⟩

/-- C3 (counterexample): with `scheduling_policy` set (and existing
remotely) but `serial_policy` unset, `build_entity` omits the
`scheduling_policy` sub-object — the group is not built although one of
its parameters is set. -/
theorem c3_counterexample :
    pC3.scheduling_policy = some "good_policy" ∧
    (build_entity pC3 envC3).res = Except.ok eC3 ∧
    eC3.scheduling_policy = none := by
  exact ⟨rfl, rfl, rfl⟩

/-! ### Helper lemmas for the decision-tree theorem -/

theorem build_entity_res_ok {p : Params} {env : Env} {c : Cluster}
    (h : (build_entity p env).res = Except.ok c) :
    ∃ sched ver, (get_sched_policy p env).res = Except.ok sched ∧
      (computeVersion p).res = Except.ok ver ∧ c = build_core p sched ver := by
  unfold build_entity at h
  cases hr : (get_sched_policy p env).res with
  | error m => rw [effBind_res_err _ hr] at h; cases h
  | ok sched =>
    rw [effBind_res_ok _ hr] at h
    cases hv : (computeVersion p).res with
    | error m => rw [effBind_res_err _ hv] at h; cases h
    | ok ver =>
      rw [effBind_res_ok _ hv] at h
      simp [effPure] at h
      exact ⟨sched, ver, rfl, rfl, h.symm⟩

theorem get_sched_res_ok_iff {p : Params} {env : Env} {sched : Option SchedPolicy}
    (h : (get_sched_policy p env).res = Except.ok sched) :
    (sched ≠ none ↔ truthyS p.serial_policy = true) := by
  unfold get_sched_policy at h
  by_cases ht : truthyS p.serial_policy = true
  · rw [if_pos ht] at h
    cases hs : search_by_name env.sched_policies p.scheduling_policy with
    | none => rw [hs] at h; simp [emitCall, effBind, effThrow] at h
    | some sp =>
      rw [hs] at h
      simp [emitCall, effBind, effPure] at h
      simp [← h, ht]
  · rw [if_neg ht] at h
    simp [effPure] at h
    simp [← h, ht]

theorem computeVersion_res_ok_iff {p : Params} {ver : Option VersionT}
    (h : (computeVersion p).res = Except.ok ver) :
    (ver ≠ none ↔ truthyS p.compatibility_version = true) := by
  unfold computeVersion at h
  by_cases ht : truthyS p.compatibility_version = true
  · rw [if_pos ht] at h
    cases hg : get_major_of_str p.compatibility_version with
    | error m => simp [liftE, effBind, hg] at h
    | ok a =>
      cases hg2 : get_minor_of_str p.compatibility_version with
      | error m => simp [liftE, effBind, effPure, hg, hg2] at h
      | ok b =>
        simp [liftE, effBind, effPure, hg, hg2] at h
        simp [← h, ht]
  · rw [if_neg ht] at h
    simp [effPure] at h
    simp [← h, ht]

theorem truthyS_iff {o : Option String} (h : o ≠ some "") :
    (truthyS o = true ↔ o ≠ none) := by
  cases o with
  | none => simp [truthyS]
  | some s =>
    have hs : s ≠ "" := fun hh => h (by rw [hh])
    simp [truthyS, hs]

theorem truthyL_iff {o : Option (List String)} (h : o ≠ some []) :
    (truthyL o = true ↔ o ≠ none) := by
  cases o with
  | none => simp [truthyL]
  | some l =>
    have hl : l ≠ [] := fun hh => h (by rw [hh])
    simp [truthyL, hl]

theorem if_ne_none_iff {α : Type} (c : Prop) [Decidable c] (x : α) :
    ((if c then some x else none) ≠ none) ↔ c := by
  split_ifs with h <;> simp [h]

/-- C3 (amended): for well-formed parameters and a successfully built
entity, every optional sub-object except the scheduling policy is
present exactly when its parameter group is specified; the scheduling
policy sub-object is present exactly when `serial_policy` is truthy
(so specifying `scheduling_policy` alone does not build it). -/
theorem c3_build_groups (p : Params) (env : Env) (c : Cluster)
    (hwf : WFParams p) (h : (build_entity p env).res = Except.ok c) :
    BuildGroupsSpec p c := by
  obtain ⟨sched, ver, hs, hv, rfl⟩ := build_entity_res_ok h
  obtain ⟨w1, w2, w3, w4, w5, w6, w7, w8, w9, w10, w11, w12, w13, w14, w15, w16⟩ := hwf
  refine ⟨?_, ?_, ?_, ?_, ?_, ?_, ?_, ?_, ?_, ?_, ?_, ?_, ?_, ?_⟩
  · simpa [build_core, Option.map_eq_none'] using get_sched_res_ok_iff hs
  · simp only [build_core]
    exact if_ne_none_iff _ _
  · simp only [build_core]
    exact if_ne_none_iff _ _
  · simp only [build_core]
    rw [if_ne_none_iff]
    exact truthyS_iff w2
  · simp only [build_core]
    exact if_ne_none_iff _ _
  · simp only [build_core]
    rw [if_ne_none_iff]
    exact truthyS_iff w3
  · simp only [build_core]
    rw [if_ne_none_iff]
    exact truthyL_iff w4
  · simp only [build_core]
    rw [if_ne_none_iff]
    exact truthyS_iff w5
  · simp only [build_core]
    exact if_ne_none_iff _ _
  · simp only [build_core]
    rw [if_ne_none_iff]
    exact truthyS_iff w6
  · simp only [build_core]
    rw [if_ne_none_iff]
    exact truthyS_iff w7
  · simp only [build_core]
    rw [if_ne_none_iff]
    rw [Bool.or_eq_true]
    rw [truthyS_iff w8, truthyS_iff w9]
  · simp only [build_core]
    rw [← truthyS_iff w10]
    exact computeVersion_res_ok_iff hv
  · simp only [build_core]
    by_cases ht : truthyS p.switch_type = true
    · rw [if_pos ht]
    · rw [if_neg ht]
      have hnone : p.switch_type = none := by
        by_contra hn
        exact ht ((truthyS_iff w11).mpr hn)
      simp [hnone]

/-- C3 (witness): a concrete well-formed parameter set with several
groups specified; `build_entity` succeeds and the decision-tree
characterization holds for the produced cluster. -/
theorem c3_witness :
    WFParams pC3w ∧ (build_entity pC3w envC3w).res = Except.ok eC3w ∧
    BuildGroupsSpec pC3w eC3w := by
  refine ⟨by unfold WFParams; decide, by rfl, ?_⟩
  exact c3_build_groups pC3w envC3w eC3w (by unfold WFParams; decide) (by rfl)

/-- C9: the scheduling-policy lookup is gated on `serial_policy`, not
`scheduling_policy`: with `serial_policy` unset the lookup returns
`None` without any remote call and `build_entity` leaves the cluster's
scheduling policy unset; with `serial_policy` set, the policy named by
the `scheduling_policy` parameter must exist remotely or the lookup
raises "Scheduling policy ... was not found". -/
theorem c9_sched_policy_gating (p : Params) (env : Env) :
    (p.serial_policy = none →
      get_sched_policy p env = effPure none ∧
      (∀ c, (build_entity p env).res = Except.ok c → c.scheduling_policy = none)) ∧
    (∀ s, p.serial_policy = some s → s ≠ "" →
      (search_by_name env.sched_policies p.scheduling_policy = none →
        (get_sched_policy p env).res = Except.error
          ("Scheduling policy " ++ pyStr p.scheduling_policy ++ " was not found")) ∧
      (∀ sp, search_by_name env.sched_policies p.scheduling_policy = some sp →
        (get_sched_policy p env).res = Except.ok (some sp))) := by
  constructor
  · intro hser
    have ht : ¬ truthyS p.serial_policy = true := by simp [truthyS, hser]
    have hg : get_sched_policy p env = effPure none := by
      unfold get_sched_policy
      rw [if_neg ht]
    refine ⟨hg, fun c hc => ?_⟩
    obtain ⟨sched, ver, hs, hv, rfl⟩ := build_entity_res_ok hc
    have : sched = none := by
      by_contra hn
      exact ht ((get_sched_res_ok_iff hs).mp hn)
    simp [build_core, this]
  · intro s hser hne
    have ht : truthyS p.serial_policy = true := by simp [truthyS, hser, hne]
    constructor
    · intro hsearch
      unfold get_sched_policy
      rw [if_pos ht, hsearch]
      rfl
    · intro sp hsearch
      unfold get_sched_policy
      rw [if_pos ht, hsearch]
      rfl

/-- C9 (witness): with `serial_policy` unset the lookup is a no-op
returning `None` and the built cluster has no scheduling policy, even
though `scheduling_policy` names an existing remote policy; with
`serial_policy` set and a missing policy the lookup raises. -/
theorem c9_witness :
    get_sched_policy pC9b envC9 = effPure none ∧
    (build_entity pC9b envC9).res =
      Except.ok (build_core pC9b none none) ∧
    (build_core pC9b none none).scheduling_policy = none ∧
    (get_sched_policy pC9a envC9).res =
      Except.error "Scheduling policy missing_policy was not found" := by
  refine ⟨((c9_sched_policy_gating pC9b envC9).1 (by rfl)).1, by rfl,
    ((c9_sched_policy_gating pC9b envC9).1 (by rfl)).2 (build_core pC9b none none) (by rfl),
    ?_⟩
  exact ((c9_sched_policy_gating pC9a envC9).2 "custom" (by rfl) (by decide)).1 (by rfl)

theorem get_sched_policy_congr (p : Params) {env1 env2 : Env}
    (h : env1.sched_policies = env2.sched_policies) :
    get_sched_policy p env1 = get_sched_policy p env2 := by
  unfold get_sched_policy search_by_name
  rw [h]

/-- C5: the module's own logic is a pure function of the parameters and
the remote responses it actually consumes: two runs with the same
parameters and the same scheduling-policy responses (possibly differing
in everything else the remote holds - clusters, assigned ids) produce
identical results and identical call traces for both `build_entity` and
`update_check`; the only observable effects are the recorded delegated
API calls. -/
theorem c5_pure_noninterference (p : Params) (e : Cluster) (env1 env2 : Env)
    (h : env1.sched_policies = env2.sched_policies) :
    build_entity p env1 = build_entity p env2 ∧
    update_check p e env1 = update_check p e env2 := by
  have hg := get_sched_policy_congr p h
  constructor
  · unfold build_entity
    rw [hg]
  · unfold update_check conjuncts
    simp only [conj1, conj2, conj3, conj4, conj5, conj6, conj7, conj8, conj9, conj10,
      conj11, conj12, conj13, conj14, conj15, conj16, conj17, conj18, conj19, conj20,
      conj21, conj22, conj23, conj24, conj25, conj26, conj27, conj28, conj29, conj30,
      conj31, conj32, conj33]
    rw [hg]

/-- C5 (witness): two environments agreeing on scheduling policies but
differing in clusters and assigned ids give identical build/check
behaviour. -/
theorem c5_witness :
    envC5a.sched_policies = envC5b.sched_policies ∧
    build_entity pC5w envC5a = build_entity pC5w envC5b ∧
    update_check pC5w eC5w envC5a = update_check pC5w eC5w envC5b := by
  refine ⟨by rfl, ?_, ?_⟩
  · exact (c5_pure_noninterference pC5w eC5w envC5a envC5b (by rfl)).1
  · exact (c5_pure_noninterference pC5w eC5w envC5a envC5b (by rfl)).2

/-- C4: `main` never lets an exception escape and never swallows it:
whatever the reconciler does, `main` exits with its result on success
and fails with exactly the raised exception's message otherwise; in
particular a failed scheduling-policy lookup surfaces verbatim as the
failure message. -/
theorem c4_error_propagation (st : StateParam) (p : Params) (env : Env) :
    (∀ m, (main_run st p env).res = Except.error m →
      module_main st p env = MainOutcome.failJson m) ∧
    (∀ r, (main_run st p env).res = Except.ok r →
      module_main st p env = MainOutcome.exitJson r) ∧
    (search_cluster env.clusters p.name = none → truthyS p.serial_policy = true →
      search_by_name env.sched_policies p.scheduling_policy = none →
      module_main StateParam.present p env = MainOutcome.failJson
        ("Scheduling policy " ++ pyStr p.scheduling_policy ++ " was not found")) := by
  refine ⟨?_, ?_, ?_⟩
  · intro m hm
    unfold module_main
    rw [hm]
  · intro r hr
    unfold module_main
    rw [hr]
  · intro hsc ht hsb
    have hgs : (get_sched_policy p env).res = Except.error
        ("Scheduling policy " ++ pyStr p.scheduling_policy ++ " was not found") := by
      unfold get_sched_policy
      rw [if_pos ht, hsb]
      rfl
    have hbe : (build_entity p env).res = Except.error
        ("Scheduling policy " ++ pyStr p.scheduling_policy ++ " was not found") := by
      unfold build_entity
      rw [effBind_res_err _ hgs]
    have hmain : (main_run StateParam.present p env).res = Except.error
        ("Scheduling policy " ++ pyStr p.scheduling_policy ++ " was not found") := by
      unfold main_run module_create
      rw [effBind_res_ok _
        (show (emitCall (ApiCall.clustersSearch p.name)).res = Except.ok () from rfl)]
      simp only [hsc]
      rw [effBind_res_err _ hbe]
    unfold module_main
    rw [hmain]

/-- C4 (witness): a run whose scheduling-policy lookup fails remotely;
`main` fails with the underlying error's message. -/
theorem c4_witness :
    module_main StateParam.present pC4w envC4w =
      MainOutcome.failJson "Scheduling policy no_such_policy was not found" :=
  (c4_error_propagation StateParam.present pC4w envC4w).2.2 (by rfl) (by decide) (by rfl)

/-- C2: the reconciler, case by case.  For `state: present`: when no
cluster of the given name exists, the desired entity is built and added
and its representation (fresh id plus attributes) returned; when one
exists and the idempotency check finds no difference, it is returned
unchanged; when a tracked field differs, the entity is rebuilt, updated
and returned; a raised error fails the module instead.  For
`state: absent`: an existing cluster is removed and its representation
returned; a missing one yields no change. -/
theorem c2_reconciler (p : Params) (env : Env) :
    module_main StateParam.present p env =
      (match search_cluster env.clusters p.name with
       | none =>
         (match (build_entity p env).res with
          | Except.ok c =>
            MainOutcome.exitJson (mkResult true { c with id := some env.fresh_id })
          | Except.error m => MainOutcome.failJson m)
       | some e =>
         (match (update_check p e env).res with
          | Except.ok true => MainOutcome.exitJson (mkResult false e)
          | Except.ok false =>
            (match (build_entity p env).res with
             | Except.ok c => MainOutcome.exitJson (mkResult true { c with id := e.id })
             | Except.error m => MainOutcome.failJson m)
          | Except.error m => MainOutcome.failJson m)) ∧
    module_main StateParam.absent p env =
      (match search_cluster env.clusters p.name with
       | none => MainOutcome.exitJson ⟨false, none, none⟩
       | some e => MainOutcome.exitJson (mkResult true e)) := by
  constructor
  · unfold module_main main_run module_create
    rw [effBind_res_ok _
      (show (emitCall (ApiCall.clustersSearch p.name)).res = Except.ok () from rfl)]
    cases hs : search_cluster env.clusters p.name with
    | none =>
      simp only
      cases hb : (build_entity p env).res with
      | ok c =>
        rw [effBind_res_ok _ hb]
        rw [effBind_res_ok _
          (show (emitCall ApiCall.clusterAdd).res = Except.ok () from rfl)]
        rfl
      | error m =>
        rw [effBind_res_err _ hb]
    | some e =>
      simp only
      cases hu : (update_check p e env).res with
      | ok bb =>
        rw [effBind_res_ok _ hu]
        cases bb with
        | true => rfl
        | false =>
          simp only [Bool.false_eq_true, if_false]
          cases hb : (build_entity p env).res with
          | ok c =>
            rw [effBind_res_ok _ hb]
            rw [effBind_res_ok _
              (show (emitCall ApiCall.clusterUpdate).res = Except.ok () from rfl)]
            rfl
          | error m =>
            rw [effBind_res_err _ hb]
      | error m =>
        rw [effBind_res_err _ hu]
  · unfold module_main main_run module_remove
    rw [effBind_res_ok _
      (show (emitCall (ApiCall.clustersSearch p.name)).res = Except.ok () from rfl)]
    cases hs : search_cluster env.clusters p.name with
    | none => rfl
    | some e =>
      simp only
      rw [effBind_res_ok _
        (show (emitCall ApiCall.clusterRemove).res = Except.ok () from rfl)]
      rfl

/-! ### Call-trace lemmas -/

theorem calls_getAttr {α : Type} (o : Option α) (attr : String) :
    (getAttr o attr).calls = [] := by
  cases o <;> rfl

theorem calls_bind_nil {α β : Type} {x : Eff α} {f : α → Eff β}
    (h1 : x.calls = []) (h2 : ∀ a, (f a).calls = []) :
    (effBind x f).calls = [] := by
  unfold effBind
  cases hr : x.res <;> simp [h1, h2]

theorem nc1 (p : Params) (e : Cluster) (env : Env) : (conj1 p e env).calls = [] := rfl

theorem nc2 (p : Params) (e : Cluster) (env : Env) : (conj2 p e env).calls = [] := rfl

theorem nc3 (p : Params) (e : Cluster) (env : Env) : (conj3 p e env).calls = [] := rfl

theorem nc4 (p : Params) (e : Cluster) (env : Env) : (conj4 p e env).calls = [] :=
  calls_bind_nil (calls_getAttr _ _) (fun _ => rfl)

theorem nc5 (p : Params) (e : Cluster) (env : Env) : (conj5 p e env).calls = [] :=
  calls_bind_nil (calls_getAttr _ _) (fun _ => rfl)

theorem nc6 (p : Params) (e : Cluster) (env : Env) : (conj6 p e env).calls = [] := rfl

theorem nc7 (p : Params) (e : Cluster) (env : Env) : (conj7 p e env).calls = [] := rfl

theorem nc8 (p : Params) (e : Cluster) (env : Env) : (conj8 p e env).calls = [] := rfl

theorem nc9 (p : Params) (e : Cluster) (env : Env) : (conj9 p e env).calls = [] := rfl

theorem nc10 (p : Params) (e : Cluster) (env : Env) : (conj10 p e env).calls = [] :=
  calls_bind_nil (calls_getAttr _ _) (fun _ => rfl)

theorem nc11 (p : Params) (e : Cluster) (env : Env) : (conj11 p e env).calls = [] :=
  calls_bind_nil (calls_getAttr _ _) (fun _ => rfl)

theorem nc12 (p : Params) (e : Cluster) (env : Env) : (conj12 p e env).calls = [] := rfl

theorem nc13 (p : Params) (e : Cluster) (env : Env) : (conj13 p e env).calls = [] := rfl

theorem nc14 (p : Params) (e : Cluster) (env : Env) : (conj14 p e env).calls = [] := rfl

theorem nc15 (p : Params) (e : Cluster) (env : Env) : (conj15 p e env).calls = [] := rfl

theorem nc16 (p : Params) (e : Cluster) (env : Env) : (conj16 p e env).calls = [] := rfl

theorem nc17 (p : Params) (e : Cluster) (env : Env) : (conj17 p e env).calls = [] :=
  calls_bind_nil (calls_getAttr _ _) (fun _ => rfl)

theorem nc18 (p : Params) (e : Cluster) (env : Env) : (conj18 p e env).calls = [] :=
  calls_bind_nil (calls_getAttr _ _)
    (fun _ => calls_bind_nil (calls_getAttr _ _) (fun _ => rfl))

theorem nc19 (p : Params) (e : Cluster) (env : Env) : (conj19 p e env).calls = [] :=
  calls_bind_nil (calls_getAttr _ _)
    (fun _ => calls_bind_nil (calls_getAttr _ _) (fun _ => rfl))

theorem nc20 (p : Params) (e : Cluster) (env : Env) : (conj20 p e env).calls = [] :=
  calls_bind_nil (calls_getAttr _ _)
    (fun _ => calls_bind_nil (calls_getAttr _ _) (fun _ => rfl))

theorem nc21 (p : Params) (e : Cluster) (env : Env) : (conj21 p e env).calls = [] :=
  calls_bind_nil (calls_getAttr _ _) (fun _ => rfl)

theorem nc22 (p : Params) (e : Cluster) (env : Env) : (conj22 p e env).calls = [] :=
  calls_bind_nil (calls_getAttr _ _)
    (fun _ => calls_bind_nil (calls_getAttr _ _) (fun _ => rfl))

theorem nc23 (p : Params) (e : Cluster) (env : Env) : (conj23 p e env).calls = [] :=
  calls_bind_nil (calls_getAttr _ _) (fun _ => rfl)

theorem nc24 (p : Params) (e : Cluster) (env : Env) : (conj24 p e env).calls = [] :=
  calls_bind_nil (calls_getAttr _ _) (fun _ => rfl)

theorem nc25 (p : Params) (e : Cluster) (env : Env) : (conj25 p e env).calls = [] :=
  calls_bind_nil (calls_getAttr _ _) (fun _ => rfl)

theorem nc26 (p : Params) (e : Cluster) (env : Env) : (conj26 p e env).calls = [] :=
  calls_bind_nil (calls_getAttr _ _) (fun _ => rfl)

theorem nc28 (p : Params) (e : Cluster) (env : Env) : (conj28 p e env).calls = [] :=
  calls_bind_nil (calls_getAttr _ _)
    (fun _ => calls_bind_nil (calls_getAttr _ _) (fun _ => rfl))

theorem nc29 (p : Params) (e : Cluster) (env : Env) : (conj29 p e env).calls = [] :=
  calls_bind_nil (calls_getAttr _ _)
    (fun _ => calls_bind_nil (calls_getAttr _ _) (fun _ => rfl))

theorem nc30 (p : Params) (e : Cluster) (env : Env) : (conj30 p e env).calls = [] :=
  calls_bind_nil rfl (fun _ => rfl)

theorem nc31 (p : Params) (e : Cluster) (env : Env) : (conj31 p e env).calls = [] :=
  calls_bind_nil rfl (fun _ => rfl)

theorem nc32 (p : Params) (e : Cluster) (env : Env) : (conj32 p e env).calls = [] :=
  calls_bind_nil (calls_getAttr _ _)
    (fun _ => calls_bind_nil (calls_getAttr _ _) (fun _ => rfl))

theorem nc33 (p : Params) (e : Cluster) (env : Env) : (conj33 p e env).calls = [] := by
  unfold conj33
  cases e.required_rng_sources <;> rfl

theorem conj27_calls (p : Params) (e : Cluster) (env : Env) :
    (conj27 p e env).calls = (get_sched_policy p env).calls := by
  unfold conj27
  cases hr : (get_sched_policy p env).res with
  | error m => rw [effBind_calls_err _ hr]
  | ok spo =>
    rw [effBind_calls_ok _ hr]
    rw [calls_bind_nil (calls_getAttr _ _) (fun _ => rfl)]
    simp

theorem get_sched_calls (p : Params) (env : Env) :
    (get_sched_policy p env).calls =
      (if truthyS p.serial_policy then
        [ApiCall.schedPoliciesSearch p.scheduling_policy] else []) := by
  unfold get_sched_policy
  by_cases ht : truthyS p.serial_policy = true
  · rw [if_pos ht, if_pos ht]
    rw [effBind_calls_ok _
      (show (emitCall (ApiCall.schedPoliciesSearch p.scheduling_policy)).res =
        Except.ok () from rfl)]
    cases hs : search_by_name env.sched_policies p.scheduling_policy <;>
      simp [hs, emitCall, effPure, effThrow]
  · rw [if_neg ht, if_neg ht]
    rfl

theorem computeVersion_calls (p : Params) : (computeVersion p).calls = [] := by
  unfold computeVersion
  by_cases ht : truthyS p.compatibility_version = true
  · rw [if_pos ht]
    exact calls_bind_nil rfl (fun _ => calls_bind_nil rfl (fun _ => rfl))
  · rw [if_neg ht]
    rfl

theorem build_calls (p : Params) (env : Env) :
    (build_entity p env).calls =
      (if truthyS p.serial_policy then
        [ApiCall.schedPoliciesSearch p.scheduling_policy] else []) := by
  unfold build_entity
  rw [← get_sched_calls p env]
  cases hr : (get_sched_policy p env).res with
  | error m => rw [effBind_calls_err _ hr]
  | ok sched =>
    rw [effBind_calls_ok _ hr]
    rw [calls_bind_nil (computeVersion_calls p) (fun _ => rfl)]
    simp

theorem andAllM_calls_nil (cs : List (Eff Bool)) (h : ∀ c ∈ cs, c.calls = []) :
    (andAllM cs).calls = [] := by
  induction cs with
  | nil => rfl
  | cons c cs ih =>
    unfold andAllM
    cases hr : c.res with
    | error m =>
      rw [effBind_calls_err _ hr]
      exact h c (List.mem_cons_self c cs)
    | ok b =>
      rw [effBind_calls_ok _ hr, h c (List.mem_cons_self c cs)]
      cases b with
      | true => simpa using ih (fun c hc => h c (List.mem_cons_of_mem _ hc))
      | false => simp [effPure]

theorem andAllM_calls_split (cs1 : List (Eff Bool)) (c0 : Eff Bool)
    (cs2 : List (Eff Bool)) (h1 : ∀ c ∈ cs1, c.calls = [])
    (h2 : ∀ c ∈ cs2, c.calls = []) :
    (andAllM (cs1 ++ c0 :: cs2)).calls = [] ∨
    (andAllM (cs1 ++ c0 :: cs2)).calls = c0.calls := by
  induction cs1 with
  | nil =>
    simp only [List.nil_append]
    unfold andAllM
    cases hr : c0.res with
    | error m =>
      right
      rw [effBind_calls_err _ hr]
    | ok b =>
      right
      rw [effBind_calls_ok _ hr]
      cases b with
      | true => simp [andAllM_calls_nil cs2 h2]
      | false => simp [effPure]
  | cons c cs ih =>
    rw [List.cons_append]
    unfold andAllM
    cases hr : c.res with
    | error m =>
      left
      rw [effBind_calls_err _ hr]
      exact h1 c (List.mem_cons_self c cs)
    | ok b =>
      rw [effBind_calls_ok _ hr, h1 c (List.mem_cons_self c cs)]
      cases b with
      | false => simp [effPure]
      | true => simpa using ih (fun c hc => h1 c (List.mem_cons_of_mem _ hc))

theorem update_check_calls (p : Params) (e : Cluster) (env : Env) :
    (update_check p e env).calls = [] ∨
    (update_check p e env).calls = (get_sched_policy p env).calls := by
  rw [← conj27_calls p e env]
  have h1 : ∀ c ∈ [conj1 p e env, conj2 p e env, conj3 p e env, conj4 p e env,
      conj5 p e env, conj6 p e env, conj7 p e env, conj8 p e env, conj9 p e env,
      conj10 p e env, conj11 p e env, conj12 p e env, conj13 p e env, conj14 p e env,
      conj15 p e env, conj16 p e env, conj17 p e env, conj18 p e env, conj19 p e env,
      conj20 p e env, conj21 p e env, conj22 p e env, conj23 p e env, conj24 p e env,
      conj25 p e env, conj26 p e env], c.calls = [] := by
    intro c hc
    simp only [List.mem_cons, List.not_mem_nil, or_false] at hc
    rcases hc with rfl | rfl | rfl | rfl | rfl | rfl | rfl | rfl | rfl | rfl | rfl |
      rfl | rfl | rfl | rfl | rfl | rfl | rfl | rfl | rfl | rfl | rfl | rfl | rfl |
      rfl | rfl
    exacts [nc1 p e env, nc2 p e env, nc3 p e env, nc4 p e env, nc5 p e env,
      nc6 p e env, nc7 p e env, nc8 p e env, nc9 p e env, nc10 p e env, nc11 p e env,
      nc12 p e env, nc13 p e env, nc14 p e env, nc15 p e env, nc16 p e env,
      nc17 p e env, nc18 p e env, nc19 p e env, nc20 p e env, nc21 p e env,
      nc22 p e env, nc23 p e env, nc24 p e env, nc25 p e env, nc26 p e env]
  have h2 : ∀ c ∈ [conj28 p e env, conj29 p e env, conj30 p e env, conj31 p e env,
      conj32 p e env, conj33 p e env], c.calls = [] := by
    intro c hc
    simp only [List.mem_cons, List.not_mem_nil, or_false] at hc
    rcases hc with rfl | rfl | rfl | rfl | rfl | rfl
    exacts [nc28 p e env, nc29 p e env, nc30 p e env, nc31 p e env, nc32 p e env,
      nc33 p e env]
  exact andAllM_calls_split _ (conj27 p e env) _ h1 h2

/-- C6 (counterexample): with `serial_policy` set, building the desired
entity itself performs a remote scheduling-policies search, and the
create operation issues three SDK calls (lookup, scheduling-policy
search, add) — not exactly one, and not zero while building. -/
theorem c6_counterexample :
    (build_entity pC6 envC6).calls = [ApiCall.schedPoliciesSearch (some "pol6")] ∧
    (module_create pC6 envC6).calls =
      [ApiCall.clustersSearch (some "six"), ApiCall.schedPoliciesSearch (some "pol6"),
       ApiCall.clusterAdd] := by
  exact ⟨rfl, rfl⟩

/-- C6 (amended): per invocation, each reconciler operation performs
one lookup first and at most one mutating SDK call (the add, update or
remove itself); `build_entity` performs no remote call except one
scheduling-policies search exactly when `serial_policy` is set, and
`update_check` performs no remote call except possibly that same
search (again only when `serial_policy` is set). -/
theorem c6_call_traces (p : Params) (e : Cluster) (env : Env) :
    (build_entity p env).calls =
      (if truthyS p.serial_policy then
        [ApiCall.schedPoliciesSearch p.scheduling_policy] else []) ∧
    ((update_check p e env).calls = [] ∨
      (truthyS p.serial_policy = true ∧
       (update_check p e env).calls = [ApiCall.schedPoliciesSearch p.scheduling_policy])) ∧
    (module_create p env).calls.head? = some (ApiCall.clustersSearch p.name) ∧
    ((module_create p env).calls.filter isMut = [] ∨
     (module_create p env).calls.filter isMut = [ApiCall.clusterAdd] ∨
     (module_create p env).calls.filter isMut = [ApiCall.clusterUpdate]) ∧
    (module_remove p env).calls =
      (match search_cluster env.clusters p.name with
       | none => [ApiCall.clustersSearch p.name]
       | some _ => [ApiCall.clustersSearch p.name, ApiCall.clusterRemove]) := by
  have hfb : (build_entity p env).calls.filter isMut = [] := by
    rw [build_calls]
    split_ifs <;> rfl
  have hfc : ∀ e2, (update_check p e2 env).calls.filter isMut = [] := by
    intro e2
    rcases update_check_calls p e2 env with h | h
    · rw [h]
      rfl
    · rw [h, get_sched_calls]
      split_ifs <;> rfl
  refine ⟨build_calls p env, ?_, ?_, ?_, ?_⟩
  · rcases update_check_calls p e env with h | h
    · exact Or.inl h
    · rw [h, get_sched_calls]
      by_cases ht : truthyS p.serial_policy = true
      · right
        rw [if_pos ht]
        exact ⟨ht, rfl⟩
      · left
        rw [if_neg ht]
  · unfold module_create
    rw [effBind_calls_ok _
      (show (emitCall (ApiCall.clustersSearch p.name)).res = Except.ok () from rfl)]
    rfl
  · unfold module_create
    rw [effBind_calls_ok _
      (show (emitCall (ApiCall.clustersSearch p.name)).res = Except.ok () from rfl)]
    cases hs : search_cluster env.clusters p.name with
    | none =>
      simp only
      cases hb : (build_entity p env).res with
      | error m =>
        rw [effBind_calls_err _ hb]
        left
        simp [List.filter_append, hfb, emitCall, isMut]
      | ok c =>
        rw [effBind_calls_ok _ hb]
        rw [effBind_calls_ok _
          (show (emitCall ApiCall.clusterAdd).res = Except.ok () from rfl)]
        right; left
        simp [List.filter_append, hfb, emitCall, effPure, isMut]
    | some e2 =>
      simp only
      cases hu : (update_check p e2 env).res with
      | error m =>
        rw [effBind_calls_err _ hu]
        left
        simp [List.filter_append, hfc e2, emitCall, isMut]
      | ok bb =>
        rw [effBind_calls_ok _ hu]
        cases bb with
        | true =>
          left
          simp [List.filter_append, hfc e2, emitCall, effPure, isMut]
        | false =>
          simp only [Bool.false_eq_true, if_false]
          cases hb : (build_entity p env).res with
          | error m =>
            rw [effBind_calls_err _ hb]
            left
            simp [List.filter_append, hfc e2, hfb, emitCall, isMut]
          | ok c =>
            rw [effBind_calls_ok _ hb]
            rw [effBind_calls_ok _
              (show (emitCall ApiCall.clusterUpdate).res = Except.ok () from rfl)]
            right; right
            simp [List.filter_append, hfc e2, hfb, emitCall, effPure, isMut]
  · unfold module_remove
    rw [effBind_calls_ok _
      (show (emitCall (ApiCall.clustersSearch p.name)).res = Except.ok () from rfl)]
    cases hs : search_cluster env.clusters p.name with
    | none => simp [emitCall, effPure]
    | some e2 =>
      simp only
      rw [effBind_calls_ok _
        (show (emitCall ApiCall.clusterRemove).res = Except.ok () from rfl)]
      simp [emitCall, effPure]
